import Mathlib

/-!
Shallow embedding of the watch-time bot's generator logic
(`behavior_ai.py`, `stealth_manager.py`, `fingerprint_rotator.py`,
`session_orchestrator.py`) in Lean 4, together with theorems settling the
frozen claims about the specification.

Conventions used throughout:
* Python floats are modelled as exact rationals (`ℚ`); machine-float
  rounding plays no role in any claim (all comparisons are far from the
  float-error scale).
* Every call to `random.uniform(a, b)` is modelled as `uniform a b r`
  where `r : ℚ` is an entropy draw supplied through an explicit draw
  record; well-formedness (`0 ≤ r ≤ 1`) is assumed in theorems that need
  the range.  `random.randint(a, b)` sites take an integer draw with the
  range as a well-formedness hypothesis, `random.random()` gates take an
  entropy draw in `[0, 1]`, and `random.choice`/`random.choices` /
  `numpy.random.choice` sites take an index draw reduced modulo the
  candidate-list length (the weighting of weighted choices is irrelevant
  to every claim, only membership in the candidate list matters).
* Python `int(x)` (truncation toward zero) is `pyTrunc`; `round(x, 1)`
  is `roundTenth` (rounding to the nearest tenth; Python resolves exact
  `.x5` ties to even, this embedding rounds them up — no claim touches a
  tie).
-/

set_option maxRecDepth 4000

namespace WatchBot

/-- Python `int(x)`: truncation toward zero. -/
def pyTrunc (q : ℚ) : ℤ := if 0 ≤ q then ⌊q⌋ else ⌈q⌉

/-- Python `round(x, 1)`: rounding to the nearest tenth. -/
def roundTenth (q : ℚ) : ℚ := (round (10 * q) : ℤ) / 10

/-- `random.uniform(a, b)` driven by an entropy draw `r ∈ [0, 1]`. -/
def uniform (a b r : ℚ) : ℚ := a + r * (b - a)

/-- Clamp `x` into `[lo, hi]` (the ubiquitous `max(lo, min(hi, x))`). -/
def clampQ (lo hi x : ℚ) : ℚ := max lo (min hi x)

/-- Index-draw selection from a candidate list (`random.choice` and
weighted-choice sites; the draw is reduced modulo the list length). -/
def pick {α : Type} [Inhabited α] (l : List α) (i : ℕ) : α :=
  l.getD (i % l.length) default

theorem uniform_mem {a b r : ℚ} (hab : a ≤ b) (h0 : 0 ≤ r) (h1 : r ≤ 1) :
    a ≤ uniform a b r ∧ uniform a b r ≤ b := by
  unfold uniform
  constructor
  · nlinarith
  · nlinarith

theorem clampQ_mem {lo hi : ℚ} (h : lo ≤ hi) (x : ℚ) :
    lo ≤ clampQ lo hi x ∧ clampQ lo hi x ≤ hi := by
  unfold clampQ
  constructor
  · exact le_max_left _ _
  · exact max_le (by linarith) (min_le_left _ _)

theorem pyTrunc_intCast (m : ℤ) : pyTrunc (m : ℚ) = m := by
  unfold pyTrunc
  split <;> simp

theorem pyTrunc_le (q : ℚ) (h : 0 ≤ q) : (pyTrunc q : ℚ) ≤ q := by
  unfold pyTrunc
  rw [if_pos h]
  exact Int.floor_le q

theorem le_pyTrunc {m : ℤ} {q : ℚ} (h0 : 0 ≤ q) (h : (m : ℚ) ≤ q) :
    m ≤ pyTrunc q := by
  unfold pyTrunc
  rw [if_pos h0]
  exact Int.le_floor.mpr h

/-! ## Behavior AI (`behavior_ai.py`) -/

/-- The `BehaviorPattern` enumeration. -/
inductive BPattern
  | casualBrowsing
  | focusedWatching
  | multitasking
  | researchMode
  | entertainment
  deriving DecidableEq, Repr, Inhabited

/-- One entry of `BehaviorAISimulator._load_behavior_models`. -/
structure BehaviorModel where
  watchCompletion : ℚ × ℚ
  attentionSpan : ℚ × ℚ
  clickFrequency : ℚ × ℚ
  scrollFrequency : ℚ × ℚ
  pauseFrequency : ℚ × ℚ
  engagementRate : ℚ × ℚ
  preferredTimes : List String
  contentPreferences : List String
  deviceBias : List (String × ℚ)

/-- The static behavior-model table of `_load_behavior_models`. -/
def behaviorModels : BPattern → BehaviorModel
  | .casualBrowsing =>
    { watchCompletion := (3/10, 7/10)
      attentionSpan := (15, 45)
      clickFrequency := (1/10, 3/10)
      scrollFrequency := (2, 5)
      pauseFrequency := (1/2, 3/2)
      engagementRate := (1/10, 3/10)
      preferredTimes := ["afternoon", "evening", "night"]
      contentPreferences := ["entertainment", "music", "vlogs"]
      deviceBias := [("mobile", 3/5), ("desktop", 2/5)] }
  | .focusedWatching =>
    { watchCompletion := (7/10, 19/20)
      attentionSpan := (60, 180)
      clickFrequency := (1/20, 3/20)
      scrollFrequency := (1/2, 2)
      pauseFrequency := (4/5, 2)
      engagementRate := (2/5, 7/10)
      preferredTimes := ["morning", "afternoon"]
      contentPreferences := ["educational", "tutorial", "documentary"]
      deviceBias := [("desktop", 7/10), ("tablet", 3/10)] }
  | .multitasking =>
    { watchCompletion := (1/5, 1/2)
      attentionSpan := (5, 20)
      clickFrequency := (3/10, 3/5)
      scrollFrequency := (4, 8)
      pauseFrequency := (2, 4)
      engagementRate := (1/20, 1/5)
      preferredTimes := ["afternoon", "evening"]
      contentPreferences := ["entertainment", "background"]
      deviceBias := [("mobile", 4/5), ("tablet", 1/5)] }
  | .researchMode =>
    { watchCompletion := (2/5, 3/5)
      attentionSpan := (30, 90)
      clickFrequency := (1/5, 2/5)
      scrollFrequency := (3, 6)
      pauseFrequency := (3/2, 3)
      engagementRate := (3/10, 1/2)
      preferredTimes := ["morning", "afternoon"]
      contentPreferences := ["educational", "review", "comparison"]
      deviceBias := [("desktop", 9/10), ("tablet", 1/10)] }
  | .entertainment =>
    { watchCompletion := (1/2, 4/5)
      attentionSpan := (20, 60)
      clickFrequency := (3/20, 1/4)
      scrollFrequency := (1, 3)
      pauseFrequency := (3/10, 1)
      engagementRate := (1/5, 2/5)
      preferredTimes := ["evening", "night"]
      contentPreferences := ["entertainment", "comedy", "music"]
      deviceBias := [("mobile", 1/2), ("desktop", 3/10), ("tv", 1/5)] }

/-- Dictionary insertion order of the behavior-model table (the order
`pattern_scores.items()` is enumerated in). -/
def patternList : List BPattern :=
  [.casualBrowsing, .focusedWatching, .multitasking, .researchMode, .entertainment]

/-- The per-pattern score of `select_behavior_pattern`'s context branch:
`2·(time match) + 3·(content match) + 2·(device-bias weight)`. -/
def patternScore (p : BPattern) (timeOfDay contentType deviceType : String) : ℚ :=
  let model := behaviorModels p
  (if timeOfDay ∈ model.preferredTimes then 2 else 0)
    + (if contentType ∈ model.contentPreferences then 3 else 0)
    + ((model.deviceBias.lookup deviceType).getD 0) * 2

/-- Python's `max(items, key=...)` over the score dict: the first item of
the enumeration attaining the maximal score (later ties do not replace
an earlier maximum). -/
def argmaxScore (timeOfDay contentType deviceType : String) : List BPattern → BPattern → BPattern
  | [], best => best
  | p :: rest, best =>
    argmaxScore timeOfDay contentType deviceType rest
      (if patternScore p timeOfDay contentType deviceType >
          patternScore best timeOfDay contentType deviceType then p else best)

/-- `select_behavior_pattern` with a context dict
`{time_of_day, content_type, device_type}` (the deterministic branch:
no randomness is consumed on this path). -/
def selectBehaviorPatternCtx (timeOfDay contentType deviceType : String) : BPattern :=
  match patternList with
  | [] => .casualBrowsing
  | p :: rest => argmaxScore timeOfDay contentType deviceType rest p

/-- The attention-span base curves of `_load_attention_models`, keyed by
name exactly as in the source; an unknown key is `none` (a `KeyError` in
the source). -/
def attentionModels (patternType : String) : Option (List ℚ) :=
  if patternType = "short_attention" then
    some [1, 4/5, 3/5, 2/5, 3/10, 1/5, 1/10]
  else if patternType = "medium_attention" then
    some [1, 9/10, 4/5, 7/10, 3/5, 1/2, 2/5, 3/10]
  else if patternType = "long_attention" then
    some [1, 19/20, 9/10, 17/20, 4/5, 3/4, 7/10, 13/20, 3/5]
  else if patternType = "spikey_attention" then
    some [1, 7/10, 9/10, 1/2, 4/5, 2/5, 7/10]
  else if patternType = "sustained_attention" then
    some [1, 49/50, 24/25, 47/50, 23/25, 9/10, 22/25]
  else none

/-- `generate_attention_pattern` for an explicitly named shape; `varDraw i`
is the entropy of the `i`-th segment's `random.uniform` variation. -/
def generateAttentionPattern (videoDuration : ℕ) (patternType : String)
    (varDraw : ℕ → ℚ) : Option (List ℚ) :=
  (attentionModels patternType).map fun basePattern =>
    let n0 := min (videoDuration / 30) basePattern.length
    let numSegments := if n0 < 2 then 2 else n0
    (List.range numSegments).map fun i =>
      let baseValue := basePattern.getD (min i (basePattern.length - 1)) 0
      let variation :=
        if patternType = "spikey_attention" then uniform (-3/10) (3/10) (varDraw i)
        else uniform (-3/20) (3/20) (varDraw i)
      max (1/10) (min 1 (baseValue + variation))

/-! ### Mouse trajectories (`generate_mouse_trajectory`) -/

/-- One timed point of a mouse trajectory (the `MouseAction` dataclass). -/
structure MouseAction where
  x : ℤ
  y : ℤ
  actionType : String
  timestamp : ℚ
  duration : ℚ
  pressure : ℚ
  deriving DecidableEq, Repr, Inhabited

/-- One entry of `_load_mouse_patterns` (the fields the trajectory
generator reads). -/
structure MousePatternCfg where
  speedRange : ℚ × ℚ
  accelerationRange : ℚ × ℚ
  curvatureRange : ℚ × ℚ
  pauseProbability : ℚ
  deriving Repr

/-- The static mouse-pattern table of `_load_mouse_patterns`. -/
def mousePatterns (patternType : String) : Option MousePatternCfg :=
  if patternType = "straight" then
    some ⟨(1/2, 2), (1/100, 1/20), (0, 1/10), 1/10⟩
  else if patternType = "exploratory" then
    some ⟨(3/10, 3/2), (1/50, 2/25), (1/5, 1/2), 3/10⟩
  else if patternType = "hesitant" then
    some ⟨(1/10, 4/5), (1/200, 1/50), (3/10, 7/10), 1/2⟩
  else if patternType = "rapid" then
    some ⟨(1, 3), (1/20, 3/20), (1/10, 3/10), 1/20⟩
  else if patternType = "natural" then
    some ⟨(2/5, 9/5), (1/100, 1/10), (1/20, 2/5), 1/5⟩
  else none

/-- The random draws consumed by one `generate_mouse_trajectory` call. -/
structure MouseDraws where
  exC1x : ℤ
  exC1y : ℤ
  exC2x : ℤ
  exC2y : ℤ
  hesCx : ℕ → ℤ
  hesCy : ℕ → ℤ
  natU1 : ℚ
  natU2 : ℚ
  jitterGate : ℕ → ℚ
  jitterX : ℕ → ℤ
  jitterY : ℕ → ℤ
  speed : ℕ → ℚ
  pauseGate : ℕ → ℚ
  pauseDur : ℕ → ℚ
  press : ℕ → ℚ

/-- The Bezier control points chosen per pattern type (`straight` one
midpoint, `exploratory` two jittered points, `hesitant` three jittered
points at `t = 1/4, 2/4, 3/4`, otherwise one random midpoint). -/
def controlPoints (patternType : String) (sx sy ex ey : ℤ) (d : MouseDraws) :
    List (ℚ × ℚ) :=
  let dx : ℚ := (ex : ℚ) - sx
  let dy : ℚ := (ey : ℚ) - sy
  if patternType = "straight" then
    [((sx : ℚ) + dx * (1/2), (sy : ℚ) + dy * (1/2))]
  else if patternType = "exploratory" then
    [((sx : ℚ) + dx * (3/10) + (d.exC1x : ℚ), (sy : ℚ) + dy * (3/10) + (d.exC1y : ℚ)),
     ((sx : ℚ) + dx * (7/10) + (d.exC2x : ℚ), (sy : ℚ) + dy * (7/10) + (d.exC2y : ℚ))]
  else if patternType = "hesitant" then
    (List.range 3).map fun k =>
      let i : ℕ := k + 1
      let t : ℚ := (i : ℚ) / 4
      ((sx : ℚ) + dx * t + (d.hesCx i : ℚ), (sy : ℚ) + dy * t + (d.hesCy i : ℚ))
  else
    [((sx : ℚ) + dx * uniform (3/10) (7/10) d.natU1,
      (sy : ℚ) + dy * uniform (3/10) (7/10) d.natU2)]

/-- Linear interpolation of two points, `(1-t)·p + t·q` componentwise. -/
def lerp (t : ℚ) (p q : ℚ × ℚ) : ℚ × ℚ :=
  ((1 - t) * p.1 + t * q.1, (1 - t) * p.2 + t * q.2)

/-- One in-place round of de Casteljau's algorithm
(`points[i] = lerp(points[i], points[i+1])` for ascending `i`); the
trailing slots of the Python array are never read again once shortened,
so the embedding drops them. -/
def deCasteljauAux (t : ℚ) : ℕ → List (ℚ × ℚ) → List (ℚ × ℚ)
  | 0, ps => ps
  | k + 1, ps => deCasteljauAux t k (List.zipWith (lerp t) ps (ps.drop 1))

/-- De Casteljau evaluation: `len - 1` reduction rounds, then `points[0]`. -/
def deCasteljau (t : ℚ) (ps : List (ℚ × ℚ)) : ℚ × ℚ :=
  (deCasteljauAux t (ps.length - 1) ps).headI

/-- Position on the Bezier curve at parameter `t`: quadratic for one
control point, cubic for two, de Casteljau over
`[start] + controls + [end]` otherwise. -/
def bezierPoint (sx sy ex ey : ℤ) (ctrl : List (ℚ × ℚ)) (t : ℚ) : ℚ × ℚ :=
  match ctrl with
  | [c] =>
    ((1-t)^2 * sx + 2*(1-t)*t * c.1 + t^2 * ex,
     (1-t)^2 * sy + 2*(1-t)*t * c.2 + t^2 * ey)
  | [c1, c2] =>
    ((1-t)^3 * sx + 3*(1-t)^2*t * c1.1 + 3*(1-t)*t^2 * c2.1 + t^3 * ex,
     (1-t)^3 * sy + 3*(1-t)^2*t * c1.2 + 3*(1-t)*t^2 * c2.2 + t^3 * ey)
  | _ => deCasteljau t (((sx : ℚ), (sy : ℚ)) :: ctrl ++ [((ex : ℚ), (ey : ℚ))])

/-- `num_points = max(10, min(50, int(distance / 10)))`. -/
def numPoints (dist : ℚ) : ℕ := (max 10 (min 50 (pyTrunc (dist / 10)))).toNat

/-- The integer coordinates of the `i`-th trajectory point: Bezier
position at `t = i / (n-1)`, micro-movement jitter when the gate draw
exceeds `0.7`, truncated to `int`. -/
def mouseCoord (sx sy ex ey : ℤ) (ctrl : List (ℚ × ℚ)) (n : ℕ) (d : MouseDraws)
    (i : ℕ) : ℤ × ℤ :=
  let t : ℚ := (i : ℚ) / ((n - 1 : ℕ) : ℚ)
  let p := bezierPoint sx sy ex ey ctrl t
  let p' := if d.jitterGate i > 7/10
    then (p.1 + (d.jitterX i : ℚ), p.2 + (d.jitterY i : ℚ)) else p
  (pyTrunc p'.1, pyTrunc p'.2)

/-- The move duration of the `i`-th point:
`distance / (num_points · speed)`, or `0.01` for non-positive speed. -/
def mouseMoveDuration (cfg : MousePatternCfg) (dist : ℚ) (n : ℕ) (d : MouseDraws)
    (i : ℕ) : ℚ :=
  let speed := uniform cfg.speedRange.1 cfg.speedRange.2 (d.speed i)
  if speed > 0 then dist / (n * speed) else 1/100

/-- The `i`-th `MouseAction` of the trajectory. -/
def mouseAct (sx sy ex ey : ℤ) (patternType : String) (cfg : MousePatternCfg)
    (ctrl : List (ℚ × ℚ)) (dist : ℚ) (n : ℕ) (d : MouseDraws) (i : ℕ) (time : ℚ) :
    MouseAction :=
  let c := mouseCoord sx sy ex ey ctrl n d i
  let pressure := if patternType = "hesitant" then uniform (1/2) 1 (d.press i) else 1
  ⟨c.1, c.2, "move", time, mouseMoveDuration cfg dist n d i, pressure⟩

/-- The running timestamp after emitting the `i`-th point: advance by its
move duration, plus a random pause behind the per-style gate. -/
def mouseNextTime (cfg : MousePatternCfg) (dist : ℚ) (n : ℕ) (d : MouseDraws)
    (i : ℕ) (time : ℚ) : ℚ :=
  let pause := if d.pauseGate i < cfg.pauseProbability
    then uniform (1/20) (1/5) (d.pauseDur i) else 0
  time + mouseMoveDuration cfg dist n d i + pause

/-- The per-point generation loop of `generate_mouse_trajectory`:
`fuel` points remain, `i` is the current index, `time` the running
timestamp. -/
def mouseGo (sx sy ex ey : ℤ) (patternType : String) (cfg : MousePatternCfg)
    (ctrl : List (ℚ × ℚ)) (dist : ℚ) (n : ℕ) (d : MouseDraws) :
    ℕ → ℕ → ℚ → List MouseAction
  | 0, _, _ => []
  | fuel + 1, i, time =>
    mouseAct sx sy ex ey patternType cfg ctrl dist n d i time ::
      mouseGo sx sy ex ey patternType cfg ctrl dist n d fuel (i + 1)
        (mouseNextTime cfg dist n d i time)

/-- `generate_mouse_trajectory(start_x, start_y, end_x, end_y, pattern_type)`.
`dist` is the Euclidean distance `sqrt(dx² + dy²)` (supplied exactly, since
the claims only use that the clamp keeps the point count in `[10, 50]` for
any distance), `t0` the `time.time()` base timestamp. -/
def generateMouseTrajectory (sx sy ex ey : ℤ) (patternType : String)
    (dist t0 : ℚ) (d : MouseDraws) : List MouseAction :=
  let cfg := (mousePatterns patternType).getD
    ⟨(2/5, 9/5), (1/100, 1/10), (1/20, 2/5), 1/5⟩
  let n := numPoints dist
  let ctrl := controlPoints patternType sx sy ex ey d
  mouseGo sx sy ex ey patternType cfg ctrl dist n d n 0 t0

/-! ### Engagement actions and view sessions -/

/-- One engagement-action dict produced by `_generate_engagement_actions`
(the union of the per-type key sets, unused fields defaulted). -/
structure EngAction where
  type : String
  time : ℚ
  element : String := ""
  direction : String := ""
  amount : ℤ := 0
  speed : ℚ := 0
  duration : ℚ := 0
  fromQuality : String := ""
  toQuality : String := ""
  deriving Repr, DecidableEq, Inhabited

/-- The random draws consumed by one `_generate_engagement_actions` call. -/
structure EngDraws where
  clickFreqR : ℚ
  scrollFreqR : ℚ
  pauseFreqR : ℚ
  clickTimeR : ℕ → ℚ
  clickElem : ℕ → ℕ
  clickDurR : ℕ → ℚ
  scrollTimeR : ℕ → ℚ
  scrollDir : ℕ → ℕ
  scrollAmt : ℕ → ℤ
  scrollSpeedR : ℕ → ℚ
  pauseTimeR : ℕ → ℚ
  pauseDurR : ℕ → ℚ
  qualityGate : ℚ
  qualityTimeR : ℚ
  qualityFrom : ℕ
  qualityTo : ℕ
  volumeGate : ℚ
  numVolume : ℕ
  volumeTimeR : ℕ → ℚ
  volumeAmt : ℕ → ℤ

/-- `_generate_engagement_actions(behavior_pattern, watch_time)`: clicks,
scrolls and pauses in counts derived from the pattern's per-minute
frequency ranges, an optional quality change (10% gate), optional volume
changes (30% gate, 1–3 of them), finally sorted by time. -/
def generateEngagementActions (bp : BPattern) (watchTime : ℤ) (d : EngDraws) :
    List EngAction :=
  let model := behaviorModels bp
  let wt : ℚ := watchTime
  let clickFreq := uniform model.clickFrequency.1 model.clickFrequency.2 d.clickFreqR
  let scrollFreq := uniform model.scrollFrequency.1 model.scrollFrequency.2 d.scrollFreqR
  let pauseFreq := uniform model.pauseFrequency.1 model.pauseFrequency.2 d.pauseFreqR
  let numClicks := (pyTrunc (wt * clickFreq / 60)).toNat
  let numScrolls := (pyTrunc (wt * scrollFreq / 60)).toNat
  let numPauses := (pyTrunc (wt * pauseFreq / 60)).toNat
  let clicks := (List.range numClicks).map fun j =>
    { type := "click", time := uniform 10 (wt - 10) (d.clickTimeR j),
      element := pick ["video", "like", "subscribe", "comment", "share"] (d.clickElem j),
      duration := uniform (1/10) (1/2) (d.clickDurR j) : EngAction }
  let scrolls := (List.range numScrolls).map fun j =>
    { type := "scroll", time := uniform 5 (wt - 5) (d.scrollTimeR j),
      direction := pick ["up", "down"] (d.scrollDir j),
      amount := d.scrollAmt j,
      speed := uniform 50 300 (d.scrollSpeedR j) : EngAction }
  let pauses := (List.range numPauses).map fun j =>
    { type := "pause", time := uniform 15 (wt - 15) (d.pauseTimeR j),
      duration := uniform 2 10 (d.pauseDurR j) : EngAction }
  let quality := if d.qualityGate < 1/10 then
    [{ type := "quality_change", time := uniform 30 (wt - 30) d.qualityTimeR,
       fromQuality := pick ["360p", "480p", "720p"] d.qualityFrom,
       toQuality := pick ["480p", "720p", "1080p"] d.qualityTo : EngAction }]
    else []
  let volume := if d.volumeGate < 3/10 then
    (List.range d.numVolume).map fun j =>
      { type := "volume_change", time := uniform 20 (wt - 20) (d.volumeTimeR j),
        amount := d.volumeAmt j : EngAction }
    else []
  (clicks ++ scrolls ++ pauses ++ quality ++ volume).mergeSort
    (fun a b => decide (a.time ≤ b.time))

/-- The `ViewSession` dataclass. -/
structure ViewSession where
  startTime : ℚ
  endTime : ℚ
  videoDuration : ℕ
  watchTime : ℤ
  retentionRate : ℚ
  engagementActions : List EngAction
  attentionPattern : List ℚ
  deriving Repr

/-- The mutable statistics of `BehaviorAISimulator` that
`generate_view_session` touches. -/
structure BehaviorAIState where
  sessionHistory : List ViewSession
  patternUsage : BPattern → ℕ

/-- The initial simulator statistics (empty history, zero usage). -/
def initBehaviorAIState : BehaviorAIState :=
  { sessionHistory := [], patternUsage := fun _ => 0 }

/-- The random draws consumed by one `generate_view_session` call. -/
structure ViewSessionDraws where
  patIdx : ℕ
  completionR : ℚ
  attnChoice : ℕ
  attnVar : ℕ → ℚ
  eng : EngDraws

/-- `generate_view_session(video_duration, behavior_pattern)`: picks a
pattern when none is given (weighted random choice, modelled as an index
draw, with the usage counter incremented as `select_behavior_pattern`
does), samples a completion rate from the pattern's range, derives the
watch time, attention pattern and engagement actions, and appends the
session to the (unbounded) session history. -/
def generateViewSession (videoDuration : ℕ) (bp? : Option BPattern) (now : ℚ)
    (st : BehaviorAIState) (d : ViewSessionDraws) : ViewSession × BehaviorAIState :=
  let sel : BPattern × (BPattern → ℕ) :=
    match bp? with
    | some bp => (bp, st.patternUsage)
    | none =>
      let bp := pick patternList d.patIdx
      (bp, fun p => if p = bp then st.patternUsage p + 1 else st.patternUsage p)
  let bp := sel.1
  let model := behaviorModels bp
  let completionRate := uniform model.watchCompletion.1 model.watchCompletion.2 d.completionR
  let watchTime := pyTrunc ((videoDuration : ℚ) * completionRate)
  let attentionType :=
    if bp = .focusedWatching then "long_attention"
    else if bp = .multitasking then "short_attention"
    else pick ["medium_attention", "spikey_attention"] d.attnChoice
  let attentionPattern := (generateAttentionPattern videoDuration attentionType d.attnVar).getD []
  let engagementActions := generateEngagementActions bp watchTime d.eng
  let session : ViewSession :=
    ⟨now, now + watchTime, videoDuration, watchTime, completionRate,
     engagementActions, attentionPattern⟩
  (session, { sessionHistory := st.sessionHistory ++ [session], patternUsage := sel.2 })

/-! ## Stealth manager (`stealth_manager.py`) -/

/-- Keep only the most recent `cap` entries (`h = h[-cap:]` guarded by a
length check), as used for the fingerprint history (cap 50), the stealth
session history (cap 100) and the campaign history (cap 50). -/
def trimHistory {α : Type} (cap : ℕ) (hist : List α) : List α :=
  if hist.length > cap then hist.drop (hist.length - cap) else hist

/-- `StealthManager._save_session_to_history`: append, then cap at 100. -/
def stealthSaveSession {α : Type} (hist : List α) (s : α) : List α :=
  trimHistory 100 (hist ++ [s])

/-- One entry of the `retention_curves` table of `_load_real_patterns`. -/
structure RetentionData where
  curve : List ℚ
  dropPoints : List ℕ
  rewindProbability : ℚ
  pauseFrequency : ℚ

/-- The `entertainment` entry, the fallback of the `.get` lookup. -/
def entertainmentRetention : RetentionData :=
  ⟨[100, 85, 75, 70, 65, 60, 55, 50, 45, 40, 35], [1, 2, 5], 1/10, 1/5⟩

/-- The canonical per-content-type retention tables. -/
def retentionCurves (videoType : String) : Option RetentionData :=
  if videoType = "educational" then
    some ⟨[100, 95, 92, 88, 85, 82, 78, 75, 70, 65, 60], [3, 7], 3/10, 2/5⟩
  else if videoType = "entertainment" then some entertainmentRetention
  else if videoType = "tutorial" then
    some ⟨[100, 98, 95, 93, 90, 88, 85, 83, 80, 78, 75], [4, 8], 1/2, 3/5⟩
  else if videoType = "music" then
    some ⟨[100, 90, 85, 83, 82, 81, 80, 79, 78, 77, 76], [], 1/5, 1/10⟩
  else none

/-- One watch-pattern event dict (union of the per-type key sets). -/
structure WatchEvent where
  time : ℚ
  type : String
  duration : ℚ := 0
  amount : ℤ := 0
  fromQuality : String := ""
  toQuality : String := ""
  deriving Repr, DecidableEq, Inhabited

/-- The random draws consumed by one `generate_human_watch_pattern` call. -/
structure WatchDraws where
  varR : ℕ → ℚ
  dropGate : ℕ → ℚ
  dropAmt : ℕ → ℤ
  pauseTimeR : ℕ → ℚ
  pauseDurR : ℕ → ℚ
  rewindGate : ℚ
  numSeeks : ℕ
  seekTimeR : ℕ → ℚ
  seekAmt : ℕ → ℤ
  skipGate : ℚ
  numSkips : ℕ
  skipTimeR : ℕ → ℚ
  skipAmt : ℕ → ℤ
  qualityGate : ℚ
  qualityTimeR : ℚ
  qualityFrom : ℕ
  qualityTo : ℕ
  volumeGate : ℚ
  numVolume : ℕ
  volumeTimeR : ℕ → ℚ
  volumeAmt : ℕ → ℤ
  noiseR : ℚ

/-- The scaled retention curve: `max(2, min(len // 30, len(curve)))`
segments, per-segment variation (`±2` for the first, `±5` for the next
two, `-10..+5` after), clamped into `[5, 100]`. -/
def scaledRetention (videoLength : ℕ) (curve : List ℚ) (varR : ℕ → ℚ) : List ℚ :=
  let segments0 := min (videoLength / 30) curve.length
  let segments := if segments0 < 2 then 2 else segments0
  (List.range segments).map fun i =>
    let baseValue := curve.getD (min i (curve.length - 1)) 0
    let variation :=
      if i = 0 then uniform (-2) 2 (varR i)
      else if i < 3 then uniform (-5) 5 (varR i)
      else uniform (-10) 5 (varR i)
    max 5 (min 100 (baseValue + variation))

/-- The engagement-event list of `generate_human_watch_pattern`: pauses
(count `min(5, max(0, int(len·pause_freq/120)))`), rewind seeks behind the
rewind-probability gate, forward seeks behind a 30% gate, a quality change
behind a 20% gate, volume changes behind a 40% gate, sorted by time. -/
def watchEvents (videoLength : ℕ) (pauseFreq rewindProb : ℚ) (d : WatchDraws) :
    List WatchEvent :=
  let L : ℚ := videoLength
  let numPauses := (max 0 (min 5 (pyTrunc (L * pauseFreq / 120)))).toNat
  let pauses := (List.range numPauses).map fun j =>
    { time := roundTenth (uniform 30 (L - 60) (d.pauseTimeR j)), type := "pause",
      duration := roundTenth (uniform 2 15 (d.pauseDurR j)) : WatchEvent }
  let seeks := if d.rewindGate < rewindProb then
    (List.range d.numSeeks).map fun j =>
      { time := roundTenth (uniform 60 (L - 30) (d.seekTimeR j)), type := "seek",
        amount := d.seekAmt j : WatchEvent }
    else []
  let skips := if d.skipGate < 3/10 then
    (List.range d.numSkips).map fun j =>
      { time := roundTenth (uniform 30 (L - 60) (d.skipTimeR j)), type := "seek",
        amount := d.skipAmt j : WatchEvent }
    else []
  let quality := if d.qualityGate < 1/5 then
    [{ time := roundTenth (uniform 45 (L - 45) d.qualityTimeR), type := "quality_change",
       fromQuality := pick ["480p", "720p"] d.qualityFrom,
       toQuality := pick ["360p", "480p", "720p", "1080p"] d.qualityTo : WatchEvent }]
    else []
  let volume := if d.volumeGate < 2/5 then
    (List.range d.numVolume).map fun j =>
      { time := roundTenth (uniform 20 (L - 20) (d.volumeTimeR j)),
        type := "volume_change", amount := d.volumeAmt j : WatchEvent }
    else []
  (pauses ++ seeks ++ skips ++ quality ++ volume).mergeSort
    (fun a b => decide (a.time ≤ b.time))

/-- The per-event watch-time penalty of `_calculate_actual_watch_time`:
pauses cost their duration, seeks cost `0.1·|amount|`, others nothing. -/
def eventPenalty (e : WatchEvent) : ℚ :=
  if e.type = "pause" then e.duration
  else if e.type = "seek" then |(e.amount : ℚ)| * (1/10)
  else 0

/-- `_calculate_actual_watch_time`: integrate the retention curve per
segment, subtract the penalties of the events falling in each segment
(flooring each segment at 0), add ±5% multiplicative noise, floor the
total at 30 seconds and truncate to `int`. -/
def calculateActualWatchTime (videoLength : ℕ) (retentionCurve : List ℚ)
    (events : List WatchEvent) (noiseR : ℚ) : ℤ :=
  let segmentLength : ℚ := (videoLength : ℚ) / retentionCurve.length
  let totalWatch := (retentionCurve.enum.map fun p =>
    let segmentStart := (p.1 : ℚ) * segmentLength
    let segmentEnd := ((p.1 : ℚ) + 1) * segmentLength
    let segmentWatch := segmentLength * (p.2 / 100)
    let penalties := ((events.filter fun e =>
      decide (segmentStart ≤ e.time ∧ e.time < segmentEnd)).map eventPenalty).sum
    max 0 (segmentWatch - penalties)).sum
  let noise := totalWatch * uniform (-1/20) (1/20) noiseR
  pyTrunc (max 30 (totalWatch + noise))

/-- The record returned by `generate_human_watch_pattern`. -/
structure WatchPattern where
  videoType : String
  retentionCurve : List ℚ
  segmentLength : ℚ
  dropEvents : List WatchEvent
  events : List WatchEvent
  totalWatchTime : ℤ
  completionRate : ℚ
  deriving Repr

/-- `generate_human_watch_pattern(video_length, video_type)` for an
explicitly given type (the random-type branch is not taken when the
argument is non-null). -/
def generateHumanWatchPattern (videoLength : ℕ) (videoType : String)
    (d : WatchDraws) : WatchPattern :=
  let pd := (retentionCurves videoType).getD entertainmentRetention
  let retention := scaledRetention videoLength pd.curve d.varR
  let segmentLength : ℚ := (videoLength : ℚ) / retention.length
  let dropEvents := (pd.dropPoints.enum.filterMap fun p =>
    if d.dropGate p.1 > 1/2 then
      some { time := min ((videoLength : ℚ) - 10) ((p.2 : ℚ) * 30),
             type := "drop_off", amount := d.dropAmt p.1 : WatchEvent }
    else none)
  let events := watchEvents videoLength pd.pauseFrequency pd.rewindProbability d
  let actualWatch := calculateActualWatchTime videoLength retention events d.noiseR
  { videoType := videoType
    retentionCurve := retention
    segmentLength := segmentLength
    dropEvents := dropEvents
    events := events
    totalWatchTime := actualWatch
    completionRate := roundTenth ((actualWatch : ℚ) / videoLength * 100) }

/-! ## Fingerprint rotator (`fingerprint_rotator.py`)

`FingerprintConfig` carries ~50 sampled presentation fields (user agent,
screen, GPU strings, fonts, hashes, ...).  The rotation and history
claims read only `created_at` and `expires_at`; the remaining sampled
payload is collapsed into a single `payload` draw so that distinct
generations stay distinguishable without re-transcribing every table. -/

/-- The fields of `FingerprintConfig` the rotation/history logic reads,
plus the collapsed sampled payload. -/
structure FingerprintConfig where
  createdAt : ℚ
  expiresAt : ℚ
  payload : ℕ
  deriving Repr, DecidableEq

/-- The mutable state of `FingerprintRotator` touched by
`generate_fingerprint` and `rotate_fingerprint`. -/
structure RotatorState where
  currentFingerprint : Option FingerprintConfig
  fingerprintHistory : List FingerprintConfig
  fingerprintsGenerated : ℕ
  deriving Repr, DecidableEq

/-- `generate_fingerprint()` at wall-clock time `now` with sampled payload
`payload`: the new fingerprint gets `created_at = now` and
`expires_at = now + 3600` (the 1-hour TTL), becomes current, is appended
to the history which is then capped at the most recent 50, and the
generation counter is bumped. -/
def generateFingerprint (st : RotatorState) (now : ℚ) (payload : ℕ) :
    FingerprintConfig × RotatorState :=
  let fp : FingerprintConfig := { createdAt := now, expiresAt := now + 3600, payload := payload }
  (fp, { currentFingerprint := some fp
         fingerprintHistory := trimHistory 50 (st.fingerprintHistory ++ [fp])
         fingerprintsGenerated := st.fingerprintsGenerated + 1 })

/-- `rotate_fingerprint(force_rotation, min_time_between)`: generate when
there is no current fingerprint, when the current one is past its
`expires_at`, when forced, or when more than `min_time_between` seconds
have passed since `created_at`; otherwise return `None` and leave the
state untouched. -/
def rotateFingerprint (st : RotatorState) (now : ℚ) (forceRotation : Bool)
    (minTimeBetween : ℚ) (payload : ℕ) : Option FingerprintConfig × RotatorState :=
  match st.currentFingerprint with
  | none =>
    let g := generateFingerprint st now payload
    (some g.1, g.2)
  | some cur =>
    if now > cur.expiresAt then
      let g := generateFingerprint st now payload
      (some g.1, g.2)
    else if forceRotation then
      let g := generateFingerprint st now payload
      (some g.1, g.2)
    else if now - cur.createdAt > minTimeBetween then
      let g := generateFingerprint st now payload
      (some g.1, g.2)
    else (none, st)

/-! ## Session orchestrator (`session_orchestrator.py`) -/

/-- The `SessionPriority` enumeration. -/
inductive Priority
  | high
  | medium
  | low
  | test
  deriving DecidableEq, Repr, Inhabited

/-- One audience-demographics category: labelled nonnegative weights. -/
structure Demographics where
  ageGroups : List (String × ℚ)
  genders : List (String × ℚ)
  devices : List (String × ℚ)
  locations : List (String × ℚ)

/-- Normalize one demographics category to sum 1 (skipped when the sum is
not positive, as in the source). -/
def normalizeCat (l : List (String × ℚ)) : List (String × ℚ) :=
  let total := (l.map (·.2)).sum
  if total > 0 then l.map fun p => (p.1, p.2 / total) else l

/-- The `_get_engagement_pattern` record (six uniform draws). -/
structure EngagementPatternStats where
  likeProbability : ℚ
  commentProbability : ℚ
  subscribeProbability : ℚ
  shareProbability : ℚ
  completionRate : ℚ
  avgWatchTimePercentage : ℚ

/-- The simulated `_analyze_video` record. -/
structure VideoAnalysis where
  estimatedLength : ℕ
  contentType : String
  optimalViewTimes : List (ℕ × ℚ × String)
  engagementPattern : EngagementPatternStats
  audienceDemographics : Demographics
  watchPatternRecommendations : List String

/-- The random draws consumed by one `_analyze_video` call (`demoR` feeds
the 17 demographic uniforms in source order). -/
structure AnalyzeDraws where
  lengthIdx : ℕ
  contentIdx : ℕ
  engR : ℕ → ℚ
  demoR : ℕ → ℚ

/-- `_get_optimal_view_times`: the static slot table with the weekend
adjustment (`weekday ≥ 5`). -/
def getOptimalViewTimes (weekday : ℕ) : List (ℕ × ℚ × String) :=
  let slots : List (ℕ × ℚ × String) :=
    [(9, 3/10, "Morning"), (12, 7/10, "Lunch time"), (15, 4/5, "Afternoon"),
     (18, 9/10, "Evening"), (21, 3/5, "Night"), (2, 1/10, "Late night")]
  if weekday ≥ 5 then
    slots.map fun s =>
      if s.1 = 9 ∨ s.1 = 12 then (s.1, s.2.1 * (1/2), s.2.2)
      else if s.1 = 15 ∨ s.1 = 18 ∨ s.1 = 21 then (s.1, s.2.1 * (6/5), s.2.2)
      else s
  else slots

/-- `_get_audience_demographics`: seventeen range-bounded uniform draws,
normalized per category. -/
def getAudienceDemographics (r : ℕ → ℚ) : Demographics :=
  { ageGroups := normalizeCat
      [("13-17", uniform (1/10) (1/5) (r 0)), ("18-24", uniform (3/10) (2/5) (r 1)),
       ("25-34", uniform (1/5) (3/10) (r 2)), ("35-44", uniform (1/10) (1/5) (r 3)),
       ("45+", uniform (1/20) (3/20) (r 4))]
    genders := normalizeCat
      [("male", uniform (2/5) (3/5) (r 5)), ("female", uniform (3/10) (1/2) (r 6)),
       ("other", uniform (1/100) (1/20) (r 7))]
    devices := normalizeCat
      [("mobile", uniform (1/2) (7/10) (r 8)), ("desktop", uniform (1/5) (2/5) (r 9)),
       ("tablet", uniform (1/10) (1/5) (r 10)), ("tv", uniform (1/20) (1/10) (r 11))]
    locations := normalizeCat
      [("US", uniform (3/10) (1/2) (r 12)), ("IN", uniform (1/10) (1/5) (r 13)),
       ("GB", uniform (1/20) (1/10) (r 14)), ("DE", uniform (3/100) (7/100) (r 15)),
       ("Others", uniform (1/5) (2/5) (r 16))]}

/-- `_analyze_video` (simulated analysis; the length/type are
`random.choice` index draws over the static candidate lists). -/
def analyzeVideo (weekday : ℕ) (d : AnalyzeDraws) : VideoAnalysis :=
  let contentType := pick ["educational", "entertainment", "tutorial", "music", "documentary"]
    d.contentIdx
  { estimatedLength := pick [180, 300, 600, 900, 1200] d.lengthIdx
    contentType := contentType
    optimalViewTimes := getOptimalViewTimes weekday
    engagementPattern :=
      { likeProbability := uniform (3/10) (7/10) (d.engR 0)
        commentProbability := uniform (1/20) (1/5) (d.engR 1)
        subscribeProbability := uniform (1/10) (2/5) (d.engR 2)
        shareProbability := uniform (1/50) (1/10) (d.engR 3)
        completionRate := uniform (2/5) (4/5) (d.engR 4)
        avgWatchTimePercentage := uniform (1/2) (9/10) (d.engR 5) }
    audienceDemographics := getAudienceDemographics d.demoR
    watchPatternRecommendations :=
      if contentType = "educational" then
        ["Use focused_watching pattern", "Include frequent pauses",
         "High completion rates expected"]
      else if contentType = "entertainment" then
        ["Use casual_browsing or entertainment pattern", "Variable completion rates",
         "Include engagement actions"]
      else [] }

/-- The `_get_stealth_level` record. -/
structure StealthLevel where
  fingerprintRotation : Bool
  proxyRotation : Bool
  behaviorRandomization : Bool
  networkRandomization : Bool
  timingRandomization : Bool
  mouseMovementSimulation : Bool
  scrollBehaviorSimulation : Bool
  maxConcurrentSessions : ℕ
  minSessionGap : ℚ
  geoDiversity : Bool
  deriving Repr, DecidableEq

/-- The static `_get_stealth_level` table. -/
def getStealthLevel : Priority → StealthLevel
  | .high => ⟨true, true, true, true, true, true, true, 1, 1800, true⟩
  | .medium => ⟨true, true, true, false, true, true, false, 2, 900, false⟩
  | .low => ⟨false, false, true, false, false, false, false, 3, 300, false⟩
  | .test => ⟨false, false, false, false, false, false, false, 5, 60, false⟩

/-- The `_get_network_config` record. -/
structure NetworkConfig where
  useProxy : Bool
  proxyType : String
  bandwidthSimulation : Bool
  latencySimulation : Bool
  packetLossSimulation : Bool
  dnsSimulation : Bool
  ispRotation : Bool
  geoIpRotation : Bool
  deriving Repr, DecidableEq

/-- The static `_get_network_config` table. -/
def getNetworkConfig : Priority → NetworkConfig
  | .high => ⟨true, "residential", true, true, true, true, true, true⟩
  | .medium => ⟨true, "mixed", true, false, false, false, false, false⟩
  | _ => ⟨false, "none", false, false, false, false, false, false⟩

/-- The `_get_engagement_goals` record. -/
structure EngagementGoals where
  minWatchPercentage : ℚ
  maxWatchPercentage : ℚ
  likeProbability : ℚ
  commentProbability : ℚ
  subscribeProbability : ℚ
  shareProbability : ℚ
  deriving Repr, DecidableEq

/-- The static `_get_engagement_goals` table. -/
def getEngagementGoals : BPattern → EngagementGoals
  | .focusedWatching => ⟨7/10, 19/20, 7/10, 1/5, 2/5, 1/10⟩
  | .casualBrowsing => ⟨3/10, 7/10, 3/10, 1/20, 1/10, 1/50⟩
  | .multitasking => ⟨1/5, 1/2, 1/10, 1/100, 1/50, 1/200⟩
  | _ => ⟨2/5, 4/5, 1/2, 1/10, 1/5, 1/20⟩

/-- The per-category interest table of `_generate_interests`. -/
def interestCategories (contentType : String) : Option (List String) :=
  if contentType = "educational" then
    some ["Learning", "Technology", "Science", "History", "Documentaries"]
  else if contentType = "entertainment" then
    some ["Comedy", "Music", "Movies", "Gaming", "Vlogs"]
  else if contentType = "tutorial" then
    some ["How-to", "DIY", "Cooking", "Fitness", "Programming"]
  else if contentType = "music" then
    some ["Pop", "Rock", "Hip Hop", "Classical", "Electronic"]
  else if contentType = "documentary" then
    some ["Nature", "History", "Science", "Travel", "Culture"]
  else none

/-- All interests, in table order (the `all_interests` accumulation). -/
def allInterests : List String :=
  ["Learning", "Technology", "Science", "History", "Documentaries",
   "Comedy", "Music", "Movies", "Gaming", "Vlogs",
   "How-to", "DIY", "Cooking", "Fitness", "Programming",
   "Pop", "Rock", "Hip Hop", "Classical", "Electronic",
   "Nature", "History", "Science", "Travel", "Culture"]

/-- `_generate_interests`: 3–5 sampled base interests plus 1–2 sampled
extras, de-duplicated.  `random.sample(l, k)` is modelled as taking `k`
elements of a rotation of `l` (an arbitrary draw-selected subsequence;
only membership matters downstream). -/
def generateInterests (contentType : String) (numInterests rot numAdd addRot : ℕ) :
    List String :=
  let base := (interestCategories contentType).getD
    ["Comedy", "Music", "Movies", "Gaming", "Vlogs"]
  let interests := (base.rotate rot).take (min numInterests base.length)
  let additional := (allInterests.rotate addRot).take numAdd
  (interests ++ additional).dedup

/-- The `viewer_profile` record of a schedule entry. -/
structure ViewerProfile where
  ageGroup : String
  gender : String
  device : String
  location : String
  viewerType : String
  interests : List String
  watchHistory : ℤ
  subscriptionCount : ℤ
  deriving Repr, DecidableEq

/-- The random draws consumed per scheduled session by
`_create_session_schedule` / `_generate_viewer_profile`. -/
structure ScheduleDraws where
  firstDelayR : ℚ
  gapR : ℕ → ℚ
  initDurR : ℚ
  durMultR : ℕ → ℚ
  entChoice : ℕ → ℕ
  randPatIdx : ℕ → ℕ
  retentionR : ℕ → ℚ
  ageIdx : ℕ → ℕ
  genderIdx : ℕ → ℕ
  deviceIdx : ℕ → ℕ
  locIdx : ℕ → ℕ
  viewerTypeIdx : ℕ → ℕ
  numInterests : ℕ → ℕ
  interestRot : ℕ → ℕ
  numAdditional : ℕ → ℕ
  addRot : ℕ → ℕ
  watchHist : ℕ → ℤ
  subCount : ℕ → ℤ

/-- `_generate_viewer_profile` for the `i`-th session: weighted draws over
the demographics keys (modelled as index draws over the key lists). -/
def generateViewerProfile (analysis : VideoAnalysis) (d : ScheduleDraws) (i : ℕ) :
    ViewerProfile :=
  let demo := analysis.audienceDemographics
  { ageGroup := pick (demo.ageGroups.map (·.1)) (d.ageIdx i)
    gender := pick (demo.genders.map (·.1)) (d.genderIdx i)
    device := pick (demo.devices.map (·.1)) (d.deviceIdx i)
    location := pick (demo.locations.map (·.1)) (d.locIdx i)
    viewerType := pick ["new_viewer", "returning_viewer", "subscriber"] (d.viewerTypeIdx i)
    interests := generateInterests analysis.contentType (d.numInterests i)
      (d.interestRot i) (d.numAdditional i) (d.addRot i)
    watchHistory := d.watchHist i
    subscriptionCount := d.subCount i }

/-- One session-schedule entry (the `session_config` dict). -/
structure ScheduleEntry where
  sessionNumber : ℕ
  scheduledStart : ℚ
  estimatedDuration : ℚ
  behaviorPattern : BPattern
  viewerProfile : ViewerProfile
  stealthLevel : StealthLevel
  networkConfig : NetworkConfig
  engagementGoals : EngagementGoals
  retentionTarget : ℚ
  deriving Repr

/-- The per-session loop of `_create_session_schedule`: the first session
starts `uniform(60, 300)` after `time.time()`, later ones a
priority-dependent `uniform(min_gap, max_gap)` after the previous; the
running `session_duration` is re-scaled by `uniform(0.8, 1.2)` each
iteration.  The pattern-usage counter bump inside the random
`select_behavior_pattern()` fallback is a side effect on the behavior
simulator, irrelevant to the schedule, and is not threaded here. -/
def scheduleGo (priority : Priority) (minGap maxGap : ℚ) (analysis : VideoAnalysis)
    (d : ScheduleDraws) : ℕ → ℕ → ℚ → ℚ → List ScheduleEntry
  | 0, _, _, _ => []
  | fuel + 1, i, currentTime, sessionDuration =>
    let startDelay := if i = 0 then uniform 60 300 d.firstDelayR
      else uniform minGap maxGap (d.gapR i)
    let currentTime' := currentTime + startDelay
    let bp := if analysis.contentType = "educational" then BPattern.focusedWatching
      else if analysis.contentType = "entertainment" then
        pick [BPattern.casualBrowsing, BPattern.entertainment] (d.entChoice i)
      else pick patternList (d.randPatIdx i)
    let entry : ScheduleEntry :=
      { sessionNumber := i + 1
        scheduledStart := currentTime'
        estimatedDuration := sessionDuration
        behaviorPattern := bp
        viewerProfile := generateViewerProfile analysis d i
        stealthLevel := getStealthLevel priority
        networkConfig := getNetworkConfig priority
        engagementGoals := getEngagementGoals bp
        retentionTarget := uniform (2/5) (4/5) (d.retentionR i) }
    entry :: scheduleGo priority minGap maxGap analysis d fuel (i + 1) currentTime'
      (sessionDuration * uniform (4/5) (6/5) (d.durMultR i))

/-- `_create_session_schedule(num_sessions, priority, video_analysis)`
started at wall-clock time `t0`. -/
def createSessionSchedule (numSessions : ℕ) (priority : Priority)
    (analysis : VideoAnalysis) (t0 : ℚ) (d : ScheduleDraws) : List ScheduleEntry :=
  let gaps : ℚ × ℚ := match priority with
    | .high => (1800, 7200)
    | .medium => (900, 3600)
    | .low => (300, 1800)
    | .test => (60, 300)
  let sessionDuration := match priority with
    | .high => uniform 300 600 d.initDurR
    | .medium => uniform 240 480 d.initDurR
    | .low => uniform 180 360 d.initDurR
    | .test => uniform 120 240 d.initDurR
  scheduleGo priority gaps.1 gaps.2 analysis d numSessions 0 t0 sessionDuration

/-- The `success_criteria` record (the unused nested `quality_metrics`
dict is omitted). -/
structure SuccessCriteria where
  minSuccessfulSessions : ℤ
  minSuccessRate : ℚ
  minAverageWatchPercentage : ℚ
  maxDetectionRisk : ℚ
  maxConsecutiveFailures : ℕ
  maxTotalDuration : ℚ
  deriving Repr, DecidableEq

/-- `_create_success_criteria(num_sessions, priority)`. -/
def createSuccessCriteria (numSessions : ℕ) (priority : Priority) : SuccessCriteria :=
  let rates : ℚ × ℚ × ℚ := match priority with
    | .high => (9/10, 7/10, 1/10)
    | .medium => (4/5, 3/5, 1/5)
    | .low => (7/10, 1/2, 3/10)
    | .test => (3/5, 2/5, 2/5)
  { minSuccessfulSessions := pyTrunc ((numSessions : ℚ) * rates.1)
    minSuccessRate := rates.1
    minAverageWatchPercentage := rates.2.1
    maxDetectionRisk := rates.2.2
    maxConsecutiveFailures := 2
    maxTotalDuration := 86400 }

/-- The `risk_assessment` record. -/
structure RiskAssessment where
  overallRisk : ℚ
  detectionRisk : ℚ
  technicalRisk : ℚ
  timingRisk : ℚ
  behavioralRisk : ℚ
  networkRisk : ℚ
  mitigationStrategies : List String
  riskFactors : List String
  deriving Repr, DecidableEq

/-- `_get_mitigation_strategies(priority, risk_level)` (top five kept). -/
def getMitigationStrategies (priority : Priority) (riskLevel : ℚ) : List String :=
  let s1 := if riskLevel > 7/10 then
    ["Consider reducing number of sessions", "Increase time between sessions",
     "Use maximum stealth settings"] else []
  let s2 := if riskLevel > 1/2 then
    ["Rotate fingerprints between sessions", "Use residential proxies",
     "Vary behavior patterns significantly"] else []
  let s3 := if priority ≠ Priority.high then
    ["Consider upgrading to HIGH priority for better stealth"] else []
  (s1 ++ s2 ++ s3 ++ ["Monitor session success rates closely",
    "Have fallback configurations ready"]).take 5

/-- `_assess_campaign_risk(num_sessions, priority, video_analysis)`. -/
def assessCampaignRisk (numSessions : ℕ) (priority : Priority)
    (analysis : VideoAnalysis) : RiskAssessment :=
  let baseRisk : ℚ := match priority with
    | .low => 1/10
    | .medium => 3/10
    | .high => 3/5
    | .test => 4/5
  let risk1 := if numSessions > 10 then baseRisk * (3/2)
    else if numSessions > 5 then baseRisk * (6/5) else baseRisk
  let riskLevel :=
    if analysis.contentType = "educational" ∨ analysis.contentType = "documentary" then
      risk1 * (4/5)
    else if analysis.contentType = "entertainment" then risk1 * (11/10)
    else risk1
  { overallRisk := min (19/20) riskLevel
    detectionRisk := riskLevel * (4/5)
    technicalRisk := riskLevel * (2/5)
    timingRisk := riskLevel * (3/5)
    behavioralRisk := riskLevel * (7/10)
    networkRisk := riskLevel * (1/2)
    mitigationStrategies := getMitigationStrategies priority riskLevel
    riskFactors := [] }

/-- The `OrchestrationPlan` dataclass (the timestamped campaign-id string
is abstracted to a constant prefix). -/
structure OrchestrationPlan where
  campaignId : String
  videoUrl : String
  totalSessions : ℕ
  priority : Priority
  startTime : ℚ
  endTime : ℚ
  sessionSchedule : List ScheduleEntry
  successCriteria : SuccessCriteria
  riskAssessment : RiskAssessment
  deriving Repr

/-- `create_campaign_plan(video_url, num_sessions, priority)` at
wall-clock time `t0` on weekday `weekday`. -/
def createCampaignPlan (videoUrl : String) (numSessions : ℕ) (priority : Priority)
    (t0 : ℚ) (weekday : ℕ) (ad : AnalyzeDraws) (sd : ScheduleDraws) :
    OrchestrationPlan :=
  let analysis := analyzeVideo weekday ad
  let schedule := createSessionSchedule numSessions priority analysis t0 sd
  let totalDuration := (schedule.map (·.estimatedDuration)).sum
  let bufferTime := totalDuration * (1/5)
  { campaignId := "campaign"
    videoUrl := videoUrl
    totalSessions := numSessions
    priority := priority
    startTime := t0
    endTime := t0 + totalDuration + bufferTime
    sessionSchedule := schedule
    successCriteria := createSuccessCriteria numSessions priority
    riskAssessment := assessCampaignRisk numSessions priority analysis }

/-- The session-result dict returned by the external
`bot.run_advanced_session` collaborator: a success flag and an optional
`watch_data.watch_time`. -/
structure SessionResult where
  success : Bool
  watchData : Option ℚ
  deriving Repr, DecidableEq

/-- One entry of the campaign's `sessions` list. -/
structure SessionRecord where
  sessionNumber : ℕ
  result : SessionResult
  timestamp : ℚ
  deriving Repr, DecidableEq

/-- `_should_stop_campaign`: never before 3 sessions; stop when the
failures among the last 3 sessions reach `max_consecutive_failures`, when
the running success rate drops below half of `min_success_rate`, or —
past half of `max_total_duration` — below `0.7 · min_success_rate`. -/
def shouldStopCampaign (sessions : List SessionRecord) (criteria : SuccessCriteria)
    (elapsed : ℚ) : Bool :=
  if sessions.length < 3 then false
  else
    let recentFailures :=
      ((sessions.drop (sessions.length - 3)).filter fun s => !s.result.success).length
    if criteria.maxConsecutiveFailures ≤ recentFailures then true
    else
      let successful := (sessions.filter fun s => s.result.success).length
      let successRate : ℚ := (successful : ℚ) / sessions.length
      if successRate < criteria.minSuccessRate * (1/2) then true
      else if elapsed > criteria.maxTotalDuration * (1/2) ∧
          successRate < criteria.minSuccessRate * (7/10) then true
      else false

/-- The per-session loop of `execute_campaign`: run each scheduled session
through the external collaborator (`results i` is session `i`'s outcome,
`elapsedAt i` the campaign age at its post-session check), append the
record, and break when `_should_stop_campaign` fires.  Returns the session
records and whether the emergency stop fired. -/
def execGo (results : ℕ → SessionResult) (elapsedAt : ℕ → ℚ)
    (criteria : SuccessCriteria) : List ScheduleEntry → ℕ → List SessionRecord →
    List SessionRecord × Bool
  | [], _, sessions => (sessions, false)
  | _ :: rest, i, sessions =>
    let res := results i
    let sessions' := sessions ++ [⟨i + 1, res, elapsedAt i⟩]
    if shouldStopCampaign sessions' criteria (elapsedAt i) then (sessions', true)
    else execGo results elapsedAt criteria rest (i + 1) sessions'

/-- The final campaign record of `execute_campaign` (exception-free path):
session records, the status field after all assignments, whether the
emergency stop fired (the transient `stopped_early` status assignment
of the break branch), and the computed results. -/
structure CampaignExec where
  sessions : List SessionRecord
  status : String
  emergencyStopped : Bool
  successfulSessions : ℕ
  failedSessions : ℕ
  successRate : ℚ
  totalWatchTime : ℚ
  deriving Repr

/-- `execute_campaign(plan)` on the exception-free path.  After the loop —
also reached by `break` — the code unconditionally assigns
`completed` to the status field, overwriting the break branch's transient
`stopped_early` assignment. -/
def executeCampaign (plan : OrchestrationPlan) (results : ℕ → SessionResult)
    (elapsedAt : ℕ → ℚ) : CampaignExec :=
  let r := execGo results elapsedAt plan.successCriteria plan.sessionSchedule 0 []
  let sessions := r.1
  let successful := (sessions.filter fun s => s.result.success).length
  let failed := (sessions.filter fun s => !s.result.success).length
  let totalWatch := ((sessions.filter fun s => s.result.success).map
    fun s => (s.result.watchData).getD 0).sum
  { sessions := sessions
    status := "completed"
    emergencyStopped := r.2
    successfulSessions := successful
    failedSessions := failed
    successRate := if plan.totalSessions > 0 then
      (successful : ℚ) / plan.totalSessions else 0
    totalWatchTime := totalWatch }

/-! ## Concrete draw records used to instantiate the theorems -/

/-- All-zero engagement draws. -/
def zeroEngDraws : EngDraws :=
  { clickFreqR := 0, scrollFreqR := 0, pauseFreqR := 0
    clickTimeR := fun _ => 0, clickElem := fun _ => 0, clickDurR := fun _ => 0
    scrollTimeR := fun _ => 0, scrollDir := fun _ => 0, scrollAmt := fun _ => 0
    scrollSpeedR := fun _ => 0, pauseTimeR := fun _ => 0, pauseDurR := fun _ => 0
    qualityGate := 0, qualityTimeR := 0, qualityFrom := 0, qualityTo := 0
    volumeGate := 0, numVolume := 0, volumeTimeR := fun _ => 0, volumeAmt := fun _ => 0 }

/-- All-zero watch-pattern draws. -/
def zeroWatchDraws : WatchDraws :=
  { varR := fun _ => 0, dropGate := fun _ => 0, dropAmt := fun _ => 0
    pauseTimeR := fun _ => 0, pauseDurR := fun _ => 0
    rewindGate := 0, numSeeks := 0, seekTimeR := fun _ => 0, seekAmt := fun _ => 0
    skipGate := 0, numSkips := 0, skipTimeR := fun _ => 0, skipAmt := fun _ => 0
    qualityGate := 0, qualityTimeR := 0, qualityFrom := 0, qualityTo := 0
    volumeGate := 0, numVolume := 0, volumeTimeR := fun _ => 0, volumeAmt := fun _ => 0
    noiseR := 0 }

/-- All-zero view-session draws. -/
def zeroViewSessionDraws : ViewSessionDraws :=
  { patIdx := 0, completionR := 0, attnChoice := 0, attnVar := fun _ => 0
    eng := zeroEngDraws }

/-- One `generate_view_session` call on a 300-second video with a fixed
pattern and all-zero draws (used to iterate the simulator state). -/
def viewStep (st : BehaviorAIState) : BehaviorAIState :=
  (generateViewSession 300 (some BPattern.casualBrowsing) 0 st zeroViewSessionDraws).2

/-- Mouse draws whose micro-movement jitter fires on every point with a
`+2` x-offset. -/
def jitterMouseDraws : MouseDraws :=
  { exC1x := 0, exC1y := 0, exC2x := 0, exC2y := 0
    hesCx := fun _ => 0, hesCy := fun _ => 0
    natU1 := 0, natU2 := 0
    jitterGate := fun _ => 4/5, jitterX := fun _ => 2, jitterY := fun _ => 0
    speed := fun _ => 0, pauseGate := fun _ => 1, pauseDur := fun _ => 0
    press := fun _ => 0 }

/-- All-zero mouse draws (jitter never fires: the gate `0` is not `> 0.7`). -/
def zeroMouseDraws : MouseDraws :=
  { exC1x := 0, exC1y := 0, exC2x := 0, exC2y := 0
    hesCx := fun _ => 0, hesCy := fun _ => 0
    natU1 := 0, natU2 := 0
    jitterGate := fun _ => 0, jitterX := fun _ => 0, jitterY := fun _ => 0
    speed := fun _ => 0, pauseGate := fun _ => 1, pauseDur := fun _ => 0
    press := fun _ => 0 }

/-- All-zero video-analysis draws. -/
def zeroAnalyzeDraws : AnalyzeDraws :=
  { lengthIdx := 0, contentIdx := 0, engR := fun _ => 0, demoR := fun _ => 0 }

/-- All-zero schedule draws. -/
def zeroScheduleDraws : ScheduleDraws :=
  { firstDelayR := 0, gapR := fun _ => 0, initDurR := 0, durMultR := fun _ => 0
    entChoice := fun _ => 0, randPatIdx := fun _ => 0, retentionR := fun _ => 0
    ageIdx := fun _ => 0, genderIdx := fun _ => 0, deviceIdx := fun _ => 0
    locIdx := fun _ => 0, viewerTypeIdx := fun _ => 0
    numInterests := fun _ => 3, interestRot := fun _ => 0
    numAdditional := fun _ => 1, addRot := fun _ => 0
    watchHist := fun _ => 10, subCount := fun _ => 0 }

/-- A concrete 4-session HIGH-priority campaign plan. -/
def plan4 : OrchestrationPlan :=
  createCampaignPlan "https://example.test/v" 4 Priority.high 0 0
    zeroAnalyzeDraws zeroScheduleDraws

/-- A session-result oracle on which every session fails. -/
def allFailResults : ℕ → SessionResult := fun _ => { success := false, watchData := none }

/-- A rotator state holding a current fingerprint created at time 0. -/
def someRotState : RotatorState :=
  { currentFingerprint := some { createdAt := 0, expiresAt := 3600, payload := 0 }
    fingerprintHistory := [{ createdAt := 0, expiresAt := 3600, payload := 0 }]
    fingerprintsGenerated := 1 }

/-- The pristine rotator state (no current fingerprint). -/
def emptyRotState : RotatorState :=
  { currentFingerprint := none, fingerprintHistory := [], fingerprintsGenerated := 0 }

/-! # Theorems settling the claims -/

/-- C7: for the context `{time_of_day: "morning", content_type:
"educational", device_type: "desktop"}`, `select_behavior_pattern`
deterministically selects FOCUSED_WATCHING or RESEARCH_MODE (it is
RESEARCH_MODE, score 6.8) and never CASUAL_BROWSING; the context branch
consumes no random draws. -/
theorem selectBehaviorPattern_morning_educational_desktop :
    (selectBehaviorPatternCtx "morning" "educational" "desktop" = BPattern.focusedWatching ∨
      selectBehaviorPatternCtx "morning" "educational" "desktop" = BPattern.researchMode) ∧
    selectBehaviorPatternCtx "morning" "educational" "desktop" ≠ BPattern.casualBrowsing := by
  with_unfolding_all decide

/-- C10: when no current fingerprint exists, `rotate_fingerprint` always
returns a freshly generated fingerprint (never `None`), for every value
of the force flag and the minimum-interval argument. -/
theorem rotateFingerprint_noCurrent (st : RotatorState) (now minTimeBetween : ℚ)
    (forceRotation : Bool) (payload : ℕ)
    (h : st.currentFingerprint = none) :
    rotateFingerprint st now forceRotation minTimeBetween payload =
      (some (generateFingerprint st now payload).1, (generateFingerprint st now payload).2) := by
  unfold rotateFingerprint
  rw [h]

/-- Witness for C10 at the pristine state with `force = false` and a
minimum interval of 300 seconds. -/
theorem rotateFingerprint_noCurrent_witness :
    rotateFingerprint emptyRotState 1000 false 300 7 =
      (some (generateFingerprint emptyRotState 1000 7).1,
       (generateFingerprint emptyRotState 1000 7).2) :=
  rotateFingerprint_noCurrent emptyRotState 1000 300 false 7 rfl

/-- C8: with a current fingerprint present, `rotate_fingerprint` returns a
freshly generated fingerprint — which becomes the current one — exactly
when the TTL has elapsed, the rotation is forced, or the time since
creation exceeds the minimum interval; otherwise it returns `None` and
leaves the state unchanged. -/
theorem rotateFingerprint_policy (st : RotatorState) (now minTimeBetween : ℚ)
    (forceRotation : Bool) (payload : ℕ) (cur : FingerprintConfig)
    (h : st.currentFingerprint = some cur) :
    ((now > cur.expiresAt ∨ forceRotation = true ∨ now - cur.createdAt > minTimeBetween) →
      rotateFingerprint st now forceRotation minTimeBetween payload =
        (some (generateFingerprint st now payload).1, (generateFingerprint st now payload).2) ∧
      ((generateFingerprint st now payload).2).currentFingerprint =
        some (generateFingerprint st now payload).1) ∧
    (¬(now > cur.expiresAt ∨ forceRotation = true ∨ now - cur.createdAt > minTimeBetween) →
      rotateFingerprint st now forceRotation minTimeBetween payload = (none, st)) := by
  constructor
  · intro hc
    have heq : rotateFingerprint st now forceRotation minTimeBetween payload =
        (some (generateFingerprint st now payload).1, (generateFingerprint st now payload).2) := by
      simp only [rotateFingerprint, h]
      split_ifs with h1 h2 h3
      · rfl
      · rfl
      · rfl
      · rcases hc with hc | hc | hc
        · exact absurd hc h1
        · exact absurd hc h2
        · exact absurd hc h3
    exact ⟨heq, by simp [generateFingerprint]⟩
  · intro hn
    push_neg at hn
    simp only [rotateFingerprint, h]
    split_ifs with h1 h2 h3
    · exact absurd h1 (not_lt.mpr hn.1)
    · exact absurd h2 hn.2.1
    · exact absurd h3 (not_lt.mpr hn.2.2)
    · rfl

/-- Witness for C8: at a state whose current fingerprint was created at
time 0 (TTL 3600), a forced rotation at time 10 generates, and an
unforced call at time 10 with a 300-second minimum interval does not. -/
theorem rotateFingerprint_policy_witness :
    (rotateFingerprint someRotState 10 true 300 3 =
      (some (generateFingerprint someRotState 10 3).1,
       (generateFingerprint someRotState 10 3).2)) ∧
    rotateFingerprint someRotState 10 false 300 3 = (none, someRotState) := by
  constructor
  · exact ((rotateFingerprint_policy someRotState 10 300 true 3 _ rfl).1
      (Or.inr (Or.inl rfl))).1
  · exact (rotateFingerprint_policy someRotState 10 300 false 3 _ rfl).2
      (by norm_num [someRotState])

/-- C6: for every named base shape, the attention pattern has length
`max(2, duration // 30)` truncated to the base curve's length, and every
value lies in `[0.1, 1.0]`. -/
theorem generateAttentionPattern_spec (videoDuration : ℕ) (patternType : String)
    (base : List ℚ) (varDraw : ℕ → ℚ)
    (h : attentionModels patternType = some base) :
    ∃ l, generateAttentionPattern videoDuration patternType varDraw = some l ∧
      l.length = min (max 2 (videoDuration / 30)) base.length ∧
      ∀ v ∈ l, 1/10 ≤ v ∧ v ≤ 1 := by
  have hlen : 2 ≤ base.length := by
    unfold attentionModels at h
    split_ifs at h <;> simp only [Option.some.injEq] at h <;> try subst h
    all_goals simp_all
  simp only [generateAttentionPattern, h, Option.map_some']
  refine ⟨_, rfl, ?_, ?_⟩
  · simp only [List.length_map, List.length_range]
    split_ifs with hc <;> omega
  · intro v hv
    simp only [List.mem_map, List.mem_range] at hv
    obtain ⟨i, _, rfl⟩ := hv
    exact ⟨le_max_left _ _, max_le (by norm_num) (min_le_left _ _)⟩

/-- Witness for C6: the `short_attention` shape on a 300-second video. -/
theorem generateAttentionPattern_spec_witness :
    attentionModels "short_attention" = some [1, 4/5, 3/5, 2/5, 3/10, 1/5, 1/10] ∧
    ∃ l, generateAttentionPattern 300 "short_attention" (fun _ => 0) = some l ∧
      l.length = min (max 2 (300 / 30))
        ([1, 4/5, 3/5, 2/5, 3/10, 1/5, (1/10 : ℚ)]).length ∧
      ∀ v ∈ l, 1/10 ≤ v ∧ v ≤ 1 :=
  ⟨rfl, generateAttentionPattern_spec 300 "short_attention" _ (fun _ => 0) rfl⟩

/-- The history trim keeps exactly `min cap len` entries. -/
theorem trimHistory_length {α : Type} (cap : ℕ) (l : List α) :
    (trimHistory cap l).length = min cap l.length := by
  unfold trimHistory
  split_ifs with h
  · simp only [List.length_drop]
    omega
  · omega

/-- Each `generate_view_session` call grows the behavior session history
by exactly one entry (there is no trim). -/
theorem generateViewSession_history_succ (vd : ℕ) (bp? : Option BPattern)
    (now : ℚ) (st : BehaviorAIState) (d : ViewSessionDraws) :
    ((generateViewSession vd bp? now st d).2).sessionHistory.length =
      st.sessionHistory.length + 1 := by
  cases bp? <;> simp [generateViewSession]

/-- Iterating `viewStep` `n` times grows the history by `n`. -/
theorem viewStep_iterate_length (n : ℕ) :
    ∀ st : BehaviorAIState,
      (viewStep^[n] st).sessionHistory.length = st.sessionHistory.length + n := by
  induction n with
  | zero => intro st; simp
  | succ k ih =>
    intro st
    rw [Function.iterate_succ_apply, ih]
    have := generateViewSession_history_succ 300 (some BPattern.casualBrowsing) 0 st
      zeroViewSessionDraws
    simp only [viewStep]
    omega

/-- C4 counterexample: after 101 view-session generations the behavior
session history holds 101 entries — beyond both stated caps (50 and
100); `generate_view_session` only appends, it never evicts. -/
theorem behaviorHistory_unbounded_cex :
    (viewStep^[101] initBehaviorAIState).sessionHistory.length = 101 ∧
    ¬((viewStep^[101] initBehaviorAIState).sessionHistory.length ≤ 100) := by
  have h := viewStep_iterate_length 101 initBehaviorAIState
  rw [show initBehaviorAIState.sessionHistory.length = 0 from rfl] at h
  exact ⟨by omega, by omega⟩

/-- C4 amended: the fingerprint history is capped at its most recent 50
entries after every generation, and the stealth manager's session history
at its most recent 100 — but the behavior AI session history is
unbounded: every generated view session appends one entry with no
eviction. -/
theorem history_caps_amended :
    (∀ (st : RotatorState) (now : ℚ) (payload : ℕ),
        st.fingerprintHistory.length ≤ 50 →
        ((generateFingerprint st now payload).2).fingerprintHistory.length ≤ 50) ∧
    (∀ (hist : List WatchPattern) (s : WatchPattern),
        hist.length ≤ 100 → (stealthSaveSession hist s).length ≤ 100) ∧
    (∀ (vd : ℕ) (bp? : Option BPattern) (now : ℚ) (st : BehaviorAIState)
        (d : ViewSessionDraws),
        ((generateViewSession vd bp? now st d).2).sessionHistory.length =
          st.sessionHistory.length + 1) := by
  refine ⟨fun st now payload _ => ?_, fun hist s _ => ?_,
    fun vd bp? now st d => generateViewSession_history_succ vd bp? now st d⟩
  · simp only [generateFingerprint, trimHistory_length]
    omega
  · simp only [stealthSaveSession, trimHistory_length]
    omega

/-- Witness for C4 (amended): the caps hold at concrete states. -/
theorem history_caps_amended_witness :
    (emptyRotState.fingerprintHistory.length ≤ 50 ∧
      ((generateFingerprint emptyRotState 0 0).2).fingerprintHistory.length ≤ 50) ∧
    (([] : List WatchPattern).length ≤ 100 ∧
      (stealthSaveSession ([] : List WatchPattern)
        (generateHumanWatchPattern 300 "tutorial" zeroWatchDraws)).length ≤ 100) :=
  ⟨⟨by norm_num [emptyRotState],
      history_caps_amended.1 emptyRotState 0 0 (by norm_num [emptyRotState])⟩,
    ⟨by norm_num, history_caps_amended.2.1 [] _ (by norm_num)⟩⟩

/-- C5: a HIGH-priority 3-session plan has exactly 3 schedule entries,
with strictly increasing `scheduled_start` values and consecutive gaps of
at least 1800 seconds (HIGH's minimum gap). -/
theorem createPlan_high_three_sessions (videoUrl : String) (t0 : ℚ) (weekday : ℕ)
    (ad : AnalyzeDraws) (sd : ScheduleDraws)
    (hg : ∀ i, 0 ≤ sd.gapR i ∧ sd.gapR i ≤ 1) :
    (createCampaignPlan videoUrl 3 Priority.high t0 weekday ad sd).sessionSchedule.length = 3 ∧
    ∃ s1 s2 s3,
      (createCampaignPlan videoUrl 3 Priority.high t0 weekday ad sd).sessionSchedule.map
        (·.scheduledStart) = [s1, s2, s3] ∧
      s1 < s2 ∧ s2 < s3 ∧ 1800 ≤ s2 - s1 ∧ 1800 ≤ s3 - s2 := by
  have hmap : (createCampaignPlan videoUrl 3 Priority.high t0 weekday ad sd).sessionSchedule.map
      (·.scheduledStart) =
      [t0 + uniform 60 300 sd.firstDelayR,
       t0 + uniform 60 300 sd.firstDelayR + uniform 1800 7200 (sd.gapR 1),
       t0 + uniform 60 300 sd.firstDelayR + uniform 1800 7200 (sd.gapR 1)
         + uniform 1800 7200 (sd.gapR 2)] := by
    with_unfolding_all rfl
  have hlen : (createCampaignPlan videoUrl 3 Priority.high t0 weekday ad sd).sessionSchedule.length = 3 := by
    have := congrArg List.length hmap
    simpa using this
  have h1 := uniform_mem (by norm_num : (1800 : ℚ) ≤ 7200) (hg 1).1 (hg 1).2
  have h2 := uniform_mem (by norm_num : (1800 : ℚ) ≤ 7200) (hg 2).1 (hg 2).2
  refine ⟨hlen, _, _, _, hmap, ?_, ?_, ?_, ?_⟩ <;> linarith [h1.1, h2.1]

/-- Witness for C5 at all-zero draws. -/
theorem createPlan_high_three_sessions_witness :
    (0 : ℚ) ≤ zeroScheduleDraws.firstDelayR ∧
    (createCampaignPlan "https://example.test/v" 3 Priority.high 0 0
      zeroAnalyzeDraws zeroScheduleDraws).sessionSchedule.length = 3 ∧
    ∃ s1 s2 s3,
      (createCampaignPlan "https://example.test/v" 3 Priority.high 0 0
        zeroAnalyzeDraws zeroScheduleDraws).sessionSchedule.map
        (·.scheduledStart) = [s1, s2, s3] ∧
      s1 < s2 ∧ s2 < s3 ∧ 1800 ≤ s2 - s1 ∧ 1800 ≤ s3 - s2 :=
  ⟨by norm_num [zeroScheduleDraws],
    (createPlan_high_three_sessions "https://example.test/v" 0 0 zeroAnalyzeDraws
      zeroScheduleDraws (fun i => by norm_num [zeroScheduleDraws])).1,
    (createPlan_high_three_sessions "https://example.test/v" 0 0 zeroAnalyzeDraws
      zeroScheduleDraws (fun i => by norm_num [zeroScheduleDraws])).2⟩

/-- C1 (code bug): on a 4-session HIGH-priority plan whose first 3
sessions all fail, the loop does break before a 4th session runs and the
emergency-stop branch transiently assigns the `stopped_early` status —
but the post-loop code then unconditionally overwrites the status with
`completed`, so the final status is never `stopped_early`. -/
theorem campaign_earlyStop_status_overwritten :
    (executeCampaign plan4 allFailResults (fun _ => 0)).sessions.length = 3 ∧
    (executeCampaign plan4 allFailResults (fun _ => 0)).emergencyStopped = true ∧
    (executeCampaign plan4 allFailResults (fun _ => 0)).status = "completed" ∧
    (executeCampaign plan4 allFailResults (fun _ => 0)).status ≠ "stopped_early" := by
  with_unfolding_all decide

/-! ### Mouse-trajectory lemmas (C3) -/

theorem lerp_zero (p q : ℚ × ℚ) : lerp 0 p q = p := by
  cases p
  simp [lerp]

theorem lerp_one (p q : ℚ × ℚ) : lerp 1 p q = q := by
  cases q
  simp [lerp]

theorem dcAux_zero_headI :
    ∀ (k : ℕ) (ps : List (ℚ × ℚ)), k < ps.length →
      (deCasteljauAux 0 k ps).headI = ps.headI := by
  intro k
  induction k with
  | zero => intro ps _; rfl
  | succ m ih =>
    intro ps hk
    rcases ps with _ | ⟨p, _ | ⟨q, rest⟩⟩
    · simp at hk
    · simp at hk
    · have hzip : List.zipWith (lerp 0) (p :: q :: rest) ((p :: q :: rest).drop 1)
          = p :: List.zipWith (lerp 0) (q :: rest) rest := by
        simp [lerp_zero]
      have hlen : m < (p :: List.zipWith (lerp 0) (q :: rest) rest).length := by
        simp only [List.length_cons, List.length_zipWith] at hk ⊢
        omega
      calc (deCasteljauAux 0 (m + 1) (p :: q :: rest)).headI
          = (deCasteljauAux 0 m (p :: List.zipWith (lerp 0) (q :: rest) rest)).headI := by
            rw [deCasteljauAux, hzip]
        _ = p := by rw [ih _ hlen]; rfl

theorem zipWith_lerp_one :
    ∀ ps : List (ℚ × ℚ), List.zipWith (lerp 1) ps (ps.drop 1) = ps.drop 1 := by
  intro ps
  induction ps with
  | nil => rfl
  | cons p rest ih =>
    cases rest with
    | nil => rfl
    | cons q rest' =>
      simpa [lerp_one] using ih

theorem dcAux_one :
    ∀ (k : ℕ) (ps : List (ℚ × ℚ)), deCasteljauAux 1 k ps = ps.drop k := by
  intro k
  induction k with
  | zero => intro ps; rfl
  | succ m ih =>
    intro ps
    rw [deCasteljauAux, zipWith_lerp_one, ih, List.drop_drop, Nat.add_comm]

theorem bezierPoint_zero (sx sy ex ey : ℤ) (ctrl : List (ℚ × ℚ)) :
    bezierPoint sx sy ex ey ctrl 0 = ((sx : ℚ), (sy : ℚ)) := by
  have hdc : ∀ ps : List (ℚ × ℚ), ps ≠ [] → deCasteljau 0 ps = ps.headI := by
    intro ps hne
    unfold deCasteljau
    refine dcAux_zero_headI _ ps ?_
    cases ps
    · exact absurd rfl hne
    · simp
  match ctrl with
  | [] =>
    show deCasteljau 0 _ = _
    rw [hdc _ (by simp)]
    rfl
  | [c] =>
    show ((1-(0:ℚ))^2 * sx + 2*(1-0)*0 * c.1 + 0^2 * ex,
      (1-(0:ℚ))^2 * sy + 2*(1-0)*0 * c.2 + 0^2 * ey) = _
    norm_num
  | [c1, c2] =>
    show ((1-(0:ℚ))^3 * sx + 3*(1-0)^2*0 * c1.1 + 3*(1-0)*0^2 * c2.1 + 0^3 * ex,
      (1-(0:ℚ))^3 * sy + 3*(1-0)^2*0 * c1.2 + 3*(1-0)*0^2 * c2.2 + 0^3 * ey) = _
    norm_num
  | c1 :: c2 :: c3 :: rest =>
    show deCasteljau 0 _ = _
    rw [hdc _ (by simp)]
    rfl

theorem bezierPoint_one (sx sy ex ey : ℤ) (ctrl : List (ℚ × ℚ)) :
    bezierPoint sx sy ex ey ctrl 1 = ((ex : ℚ), (ey : ℚ)) := by
  have hdc : ∀ pre : List (ℚ × ℚ),
      deCasteljau 1 (pre ++ [((ex : ℚ), (ey : ℚ))]) = ((ex : ℚ), (ey : ℚ)) := by
    intro pre
    unfold deCasteljau
    rw [dcAux_one]
    have hlen : (pre ++ [((ex : ℚ), (ey : ℚ))]).length - 1 = pre.length := by
      simp
    rw [hlen, List.drop_left]
    rfl
  match ctrl with
  | [] =>
    show deCasteljau 1 _ = _
    exact hdc [((sx : ℚ), (sy : ℚ))]
  | [c] =>
    show ((1-(1:ℚ))^2 * sx + 2*(1-1)*1 * c.1 + 1^2 * ex,
      (1-(1:ℚ))^2 * sy + 2*(1-1)*1 * c.2 + 1^2 * ey) = _
    norm_num
  | [c1, c2] =>
    show ((1-(1:ℚ))^3 * sx + 3*(1-1)^2*1 * c1.1 + 3*(1-1)*1^2 * c2.1 + 1^3 * ex,
      (1-(1:ℚ))^3 * sy + 3*(1-1)^2*1 * c1.2 + 3*(1-1)*1^2 * c2.2 + 1^3 * ey) = _
    norm_num
  | c1 :: c2 :: c3 :: rest =>
    show deCasteljau 1 (((sx : ℚ), (sy : ℚ)) :: (c1 :: c2 :: c3 :: rest) ++ [((ex : ℚ), (ey : ℚ))]) = _
    exact hdc (((sx : ℚ), (sy : ℚ)) :: c1 :: c2 :: c3 :: rest)

theorem numPoints_bounds (dist : ℚ) : 10 ≤ numPoints dist ∧ numPoints dist ≤ 50 := by
  unfold numPoints
  constructor <;> omega

theorem mouseCoord_spec (sx sy ex ey : ℤ) (ctrl : List (ℚ × ℚ)) (n : ℕ)
    (d : MouseDraws) (i : ℕ) (vx vy : ℤ)
    (hb : bezierPoint sx sy ex ey ctrl ((i : ℚ) / ((n - 1 : ℕ) : ℚ)) = ((vx : ℚ), (vy : ℚ)))
    (hjx : |d.jitterX i| ≤ 2) (hjy : |d.jitterY i| ≤ 2) :
    |(mouseCoord sx sy ex ey ctrl n d i).1 - vx| ≤ 2 ∧
    |(mouseCoord sx sy ex ey ctrl n d i).2 - vy| ≤ 2 ∧
    (¬(d.jitterGate i > 7/10) → mouseCoord sx sy ex ey ctrl n d i = (vx, vy)) := by
  simp only [mouseCoord, hb]
  split_ifs with hg
  · refine ⟨?_, ?_, fun hng => absurd hg hng⟩
    · have hx : (vx : ℚ) + (d.jitterX i : ℚ) = ((vx + d.jitterX i : ℤ) : ℚ) := by
        push_cast
        ring
      simp only [hx, pyTrunc_intCast]
      simpa using hjx
    · have hy : (vy : ℚ) + (d.jitterY i : ℚ) = ((vy + d.jitterY i : ℤ) : ℚ) := by
        push_cast
        ring
      simp only [hy, pyTrunc_intCast]
      simpa using hjy
  · refine ⟨?_, ?_, fun _ => ?_⟩ <;> simp [pyTrunc_intCast]

theorem mouseGo_length (sx sy ex ey : ℤ) (pt : String) (cfg : MousePatternCfg)
    (ctrl : List (ℚ × ℚ)) (dist : ℚ) (n : ℕ) (d : MouseDraws) :
    ∀ (fuel i : ℕ) (time : ℚ),
      (mouseGo sx sy ex ey pt cfg ctrl dist n d fuel i time).length = fuel := by
  intro fuel
  induction fuel with
  | zero => intro i time; rfl
  | succ m ih => intro i time; simp only [mouseGo, List.length_cons, ih]

theorem getLast?_cons_ne_nil {α : Type} (a : α) (l : List α) (h : l ≠ []) :
    (a :: l).getLast? = l.getLast? := by
  cases l
  · exact absurd rfl h
  · simp [List.getLast?_cons_cons]

theorem mouseGo_getLast (sx sy ex ey : ℤ) (pt : String) (cfg : MousePatternCfg)
    (ctrl : List (ℚ × ℚ)) (dist : ℚ) (n : ℕ) (d : MouseDraws) :
    ∀ (fuel i : ℕ) (time : ℚ),
      ∃ t', (mouseGo sx sy ex ey pt cfg ctrl dist n d (fuel + 1) i time).getLast? =
        some (mouseAct sx sy ex ey pt cfg ctrl dist n d (i + fuel) t') := by
  intro fuel
  induction fuel with
  | zero => intro i time; exact ⟨time, by simp [mouseGo]⟩
  | succ m ih =>
    intro i time
    obtain ⟨t', ht⟩ := ih (i + 1) (mouseNextTime cfg dist n d i time)
    have hidx : i + 1 + m = i + (m + 1) := by omega
    rw [hidx] at ht
    refine ⟨t', ?_⟩
    have hne : mouseGo sx sy ex ey pt cfg ctrl dist n d (m + 1) (i + 1)
        (mouseNextTime cfg dist n d i time) ≠ [] := by
      intro hnil
      have := congrArg List.length hnil
      rw [mouseGo_length] at this
      simp at this
    calc (mouseGo sx sy ex ey pt cfg ctrl dist n d (m + 1 + 1) i time).getLast?
        = (mouseGo sx sy ex ey pt cfg ctrl dist n d (m + 1) (i + 1)
            (mouseNextTime cfg dist n d i time)).getLast? := by
          rw [mouseGo]
          exact getLast?_cons_ne_nil _ _ hne
      _ = some (mouseAct sx sy ex ey pt cfg ctrl dist n d (i + (m + 1)) t') := ht

/-- C3 (amended): every trajectory has between 10 and 50 points; the
first point equals the start and the last equals the end whenever the
per-point micro-movement jitter does not fire on them, and in all cases
each coordinate is within 2 pixels of the respective endpoint. -/
theorem mouseTrajectory_spec (sx sy ex ey : ℤ) (patternType : String) (dist t0 : ℚ)
    (d : MouseDraws) (hjx : ∀ i, |d.jitterX i| ≤ 2) (hjy : ∀ i, |d.jitterY i| ≤ 2) :
    (10 ≤ (generateMouseTrajectory sx sy ex ey patternType dist t0 d).length ∧
      (generateMouseTrajectory sx sy ex ey patternType dist t0 d).length ≤ 50) ∧
    (∃ a, (generateMouseTrajectory sx sy ex ey patternType dist t0 d).head? = some a ∧
      |a.x - sx| ≤ 2 ∧ |a.y - sy| ≤ 2 ∧
      (¬(d.jitterGate 0 > 7/10) → a.x = sx ∧ a.y = sy)) ∧
    (∃ b, (generateMouseTrajectory sx sy ex ey patternType dist t0 d).getLast? = some b ∧
      |b.x - ex| ≤ 2 ∧ |b.y - ey| ≤ 2 ∧
      (¬(d.jitterGate (numPoints dist - 1) > 7/10) → b.x = ex ∧ b.y = ey)) := by
  have hnb := numPoints_bounds dist
  have key : generateMouseTrajectory sx sy ex ey patternType dist t0 d =
      mouseGo sx sy ex ey patternType
        ((mousePatterns patternType).getD ⟨(2/5, 9/5), (1/100, 1/10), (1/20, 2/5), 1/5⟩)
        (controlPoints patternType sx sy ex ey d) dist (numPoints dist) d
        (numPoints dist) 0 t0 := rfl
  obtain ⟨m, hm⟩ : ∃ m, numPoints dist = m + 1 := ⟨numPoints dist - 1, by omega⟩
  have hm9 : m ≠ 0 := by omega
  refine ⟨?_, ?_, ?_⟩
  · rw [key, mouseGo_length]
    omega
  · -- first point: index 0, parameter t = 0
    have hb0 : bezierPoint sx sy ex ey (controlPoints patternType sx sy ex ey d)
        (((0 : ℕ) : ℚ) / (((m + 1) - 1 : ℕ) : ℚ)) = ((sx : ℚ), (sy : ℚ)) := by
      rw [show (((0 : ℕ) : ℚ) / (((m + 1) - 1 : ℕ) : ℚ)) = 0 by simp]
      exact bezierPoint_zero sx sy ex ey _
    have hc := mouseCoord_spec sx sy ex ey (controlPoints patternType sx sy ex ey d)
      (m + 1) d 0 sx sy hb0 (hjx 0) (hjy 0)
    refine ⟨mouseAct sx sy ex ey patternType
        ((mousePatterns patternType).getD ⟨(2/5, 9/5), (1/100, 1/10), (1/20, 2/5), 1/5⟩)
        (controlPoints patternType sx sy ex ey d) dist (m + 1) d 0 t0, ?_, ?_, ?_, ?_⟩
    · rw [key, hm]
      rfl
    · exact hc.1
    · exact hc.2.1
    · intro hng
      have hcc := hc.2.2 hng
      constructor
      · show (mouseCoord sx sy ex ey _ (m + 1) d 0).1 = sx
        rw [hcc]
      · show (mouseCoord sx sy ex ey _ (m + 1) d 0).2 = sy
        rw [hcc]
  · -- last point: index n-1, parameter t = 1
    have hb1 : bezierPoint sx sy ex ey (controlPoints patternType sx sy ex ey d)
        (((m : ℕ) : ℚ) / (((m + 1) - 1 : ℕ) : ℚ)) = ((ex : ℚ), (ey : ℚ)) := by
      rw [show (((m : ℕ) : ℚ) / (((m + 1) - 1 : ℕ) : ℚ)) = 1 by
        simp only [Nat.add_sub_cancel]
        exact div_self (by exact_mod_cast hm9)]
      exact bezierPoint_one sx sy ex ey _
    have hc := mouseCoord_spec sx sy ex ey (controlPoints patternType sx sy ex ey d)
      (m + 1) d m ex ey hb1 (hjx m) (hjy m)
    obtain ⟨t', ht⟩ := mouseGo_getLast sx sy ex ey patternType
      ((mousePatterns patternType).getD ⟨(2/5, 9/5), (1/100, 1/10), (1/20, 2/5), 1/5⟩)
      (controlPoints patternType sx sy ex ey d) dist (m + 1) d m 0 t0
    refine ⟨mouseAct sx sy ex ey patternType
        ((mousePatterns patternType).getD ⟨(2/5, 9/5), (1/100, 1/10), (1/20, 2/5), 1/5⟩)
        (controlPoints patternType sx sy ex ey d) dist (m + 1) d (0 + m) t', ?_, ?_, ?_, ?_⟩
    · rw [key, hm]
      exact ht
    · simpa using hc.1
    · simpa using hc.2.1
    · intro hng
      rw [show numPoints dist - 1 = m by omega] at hng
      have hcc := hc.2.2 hng
      constructor
      · show (mouseCoord sx sy ex ey _ (m + 1) d (0 + m)).1 = ex
        simpa using congrArg Prod.fst hcc
      · show (mouseCoord sx sy ex ey _ (m + 1) d (0 + m)).2 = ey
        simpa using congrArg Prod.snd hcc

/-- C3 counterexample: with draws whose micro-movement jitter fires on
the first point with a `+2` x-offset, the trajectory from `(0,0)` to
`(30,40)` (distance 50) starts at `(2,0)`, not at the start point. -/
theorem mouseTrajectory_first_point_cex :
    ((generateMouseTrajectory 0 0 30 40 "natural" 50 0 jitterMouseDraws).head?.map
      (fun a => (a.x, a.y)) = some (2, 0)) ∧
    ((2 : ℤ), (0 : ℤ)) ≠ ((0 : ℤ), (0 : ℤ)) := by
  constructor
  · with_unfolding_all decide
  · decide

/-- Witness for C3 (amended) with jitter-free draws: endpoints are exact. -/
theorem mouseTrajectory_spec_witness :
    (∀ i, |zeroMouseDraws.jitterX i| ≤ 2) ∧
    ((10 ≤ (generateMouseTrajectory 0 0 30 40 "natural" 50 0 zeroMouseDraws).length ∧
      (generateMouseTrajectory 0 0 30 40 "natural" 50 0 zeroMouseDraws).length ≤ 50) ∧
    (∃ a, (generateMouseTrajectory 0 0 30 40 "natural" 50 0 zeroMouseDraws).head? = some a ∧
      |a.x - 0| ≤ 2 ∧ |a.y - 0| ≤ 2 ∧
      (¬(zeroMouseDraws.jitterGate 0 > 7/10) → a.x = 0 ∧ a.y = 0)) ∧
    (∃ b, (generateMouseTrajectory 0 0 30 40 "natural" 50 0 zeroMouseDraws).getLast? = some b ∧
      |b.x - 30| ≤ 2 ∧ |b.y - 40| ≤ 2 ∧
      (¬(zeroMouseDraws.jitterGate (numPoints 50 - 1) > 7/10) → b.x = 30 ∧ b.y = 40))) :=
  ⟨fun i => by norm_num [zeroMouseDraws],
    mouseTrajectory_spec 0 0 30 40 "natural" 50 0 zeroMouseDraws
      (fun i => by norm_num [zeroMouseDraws]) (fun i => by norm_num [zeroMouseDraws])⟩

/-! ### Event ordering (C9) -/

/-- Sorting by a rational key with `mergeSort` yields a list that is
pairwise non-decreasing in that key. -/
theorem pairwise_time_mergeSort {α : Type} (f : α → ℚ) (l : List α) :
    (l.mergeSort (fun a b => decide (f a ≤ f b))).Pairwise (fun a b => f a ≤ f b) := by
  have h := @List.sorted_mergeSort α (fun a b => decide (f a ≤ f b))
    (fun (a b c : α) hab hbc => by
      simp only [decide_eq_true_iff] at hab hbc ⊢
      exact le_trans hab hbc)
    (fun (a b : α) => by
      simp only [Bool.or_eq_true, decide_eq_true_iff]
      exact le_total (f a) (f b)) l
  exact h.imp fun hab => of_decide_eq_true hab

/-- C9: both the engagement-action list of
`_generate_engagement_actions` and the event list of
`generate_human_watch_pattern` are returned sorted by monotonically
non-decreasing timestamp, for every input and every random draw. -/
theorem eventLists_time_sorted :
    (∀ (bp : BPattern) (watchTime : ℤ) (d : EngDraws),
      (generateEngagementActions bp watchTime d).Pairwise (fun a b => a.time ≤ b.time)) ∧
    (∀ (videoLength : ℕ) (videoType : String) (d : WatchDraws),
      ((generateHumanWatchPattern videoLength videoType d).events).Pairwise
        (fun a b => a.time ≤ b.time)) := by
  constructor
  · intro bp watchTime d
    unfold generateEngagementActions
    exact pairwise_time_mergeSort _ _
  · intro L T d
    have hev : (generateHumanWatchPattern L T d).events =
        watchEvents L ((retentionCurves T).getD entertainmentRetention).pauseFrequency
          ((retentionCurves T).getD entertainmentRetention).rewindProbability d := rfl
    rw [hev]
    unfold watchEvents
    exact pairwise_time_mergeSort _ _

/-! ### Watch-time bounds (C2) -/

theorem roundTenth_nonneg {x : ℚ} (h : 0 ≤ x) : 0 ≤ roundTenth x := by
  unfold roundTenth
  have h10 : (0 : ℤ) ≤ round (10 * x) := by
    rw [round_eq]
    exact Int.le_floor.mpr (by push_cast; linarith)
  positivity

theorem roundTenth_ge_ten {x : ℚ} (h : 10 ≤ x) : 10 ≤ roundTenth x := by
  unfold roundTenth
  have h100 : (100 : ℤ) ≤ round (10 * x) := by
    rw [round_eq]
    exact Int.le_floor.mpr (by push_cast; linarith)
  have : (100 : ℚ) ≤ (round (10 * x) : ℤ) := by exact_mod_cast h100
  linarith

theorem roundTenth_le_of_le {x c : ℚ} (h : x ≤ c) : roundTenth x ≤ c + 1/20 := by
  unfold roundTenth
  have hfl : ((round (10 * x) : ℤ) : ℚ) ≤ 10 * x + 1/2 := by
    rw [round_eq]
    exact_mod_cast Int.floor_le (10 * x + 1/2)
  linarith

/-- The generic bound on `_calculate_actual_watch_time`: it is always at
least 30, and — when every event penalty is nonnegative and the noise
draw is well-formed — at most `1.05` times the integral of the retention
curve (floored at 30). -/
theorem calculateActualWatchTime_bounds (L : ℕ) (R : List ℚ) (E : List WatchEvent)
    (noiseR : ℚ) (hpen : ∀ e ∈ E, 0 ≤ eventPenalty e) (hr : ∀ r ∈ R, 0 ≤ r)
    (hn0 : 0 ≤ noiseR) (hn1 : noiseR ≤ 1) :
    30 ≤ calculateActualWatchTime L R E noiseR ∧
    ((calculateActualWatchTime L R E noiseR : ℚ) ≤
      max 30 ((21/20) * ((R.enum.map fun p => ((L : ℚ) / R.length) * (p.2 / 100)).sum))) := by
  have hseg : (0 : ℚ) ≤ (L : ℚ) / R.length := by positivity
  set T := (R.enum.map fun p =>
    let segmentStart := (p.1 : ℚ) * ((L : ℚ) / R.length)
    let segmentEnd := ((p.1 : ℚ) + 1) * ((L : ℚ) / R.length)
    let segmentWatch := ((L : ℚ) / R.length) * (p.2 / 100)
    let penalties := ((E.filter fun e =>
      decide (segmentStart ≤ e.time ∧ e.time < segmentEnd)).map eventPenalty).sum
    max 0 (segmentWatch - penalties)).sum with hT
  have hTnn : 0 ≤ T := by
    rw [hT]
    refine List.sum_nonneg ?_
    intro x hx
    simp only [List.mem_map] at hx
    obtain ⟨p, _, rfl⟩ := hx
    exact le_max_left _ _
  have hTle : T ≤ (R.enum.map fun p => ((L : ℚ) / R.length) * (p.2 / 100)).sum := by
    rw [hT]
    refine List.sum_le_sum ?_
    intro p hp
    have hp2 : (0 : ℚ) ≤ p.2 := hr p.2 (List.snd_mem_of_mem_enum hp)
    have hw : (0 : ℚ) ≤ ((L : ℚ) / R.length) * (p.2 / 100) := by positivity
    have hpn : (0 : ℚ) ≤ ((E.filter fun e =>
        decide ((p.1 : ℚ) * ((L : ℚ) / R.length) ≤ e.time ∧
          e.time < ((p.1 : ℚ) + 1) * ((L : ℚ) / R.length))).map eventPenalty).sum := by
      refine List.sum_nonneg ?_
      intro x hx
      simp only [List.mem_map] at hx
      obtain ⟨e, he, rfl⟩ := hx
      exact hpen e (List.mem_filter.mp he).1
    exact max_le hw (by linarith)
  have hkey : calculateActualWatchTime L R E noiseR =
      pyTrunc (max 30 (T + T * uniform (-1/20) (1/20) noiseR)) := by
    rw [calculateActualWatchTime, hT]
  set ν := uniform (-1/20) (1/20) noiseR with hν
  have hνb := uniform_mem (by norm_num : (-1/20 : ℚ) ≤ 1/20) hn0 hn1
  have hname : max 30 (T + T * ν) = max 30 (T + T * ν) := rfl
  have harg0 : (0 : ℚ) ≤ max 30 (T + T * ν) := le_trans (by norm_num) (le_max_left _ _)
  constructor
  · rw [hkey]
    exact le_pyTrunc harg0 (by exact_mod_cast le_max_left _ _)
  · rw [hkey]
    have h1 : (pyTrunc (max 30 (T + T * ν)) : ℚ) ≤ max 30 (T + T * ν) :=
      pyTrunc_le _ harg0
    have h2 : T + T * ν ≤ (21/20) *
        ((R.enum.map fun p => ((L : ℚ) / R.length) * (p.2 / 100)).sum) := by
      have hS : 0 ≤ (R.enum.map fun p => ((L : ℚ) / R.length) * (p.2 / 100)).sum := by
        linarith
      nlinarith [hνb.1, hνb.2, hTnn, hTle]
    calc (pyTrunc (max 30 (T + T * ν)) : ℚ)
        ≤ max 30 (T + T * ν) := h1
      _ ≤ max 30 ((21/20) *
          ((R.enum.map fun p => ((L : ℚ) / R.length) * (p.2 / 100)).sum)) :=
        max_le_max le_rfl h2

/-- Every scaled-retention value is nonnegative (each is `≥ 5`). -/
theorem scaledRetention_nonneg (L : ℕ) (c : List ℚ) (v : ℕ → ℚ) :
    ∀ r ∈ scaledRetention L c v, (0 : ℚ) ≤ r := by
  intro r hr
  unfold scaledRetention at hr
  simp only [List.mem_map, List.mem_range] at hr
  obtain ⟨i, _, rfl⟩ := hr
  exact le_trans (by norm_num) (le_max_left _ _)

/-- Every watch-pattern event carries a nonnegative penalty (pauses have
nonnegative rounded durations, seeks cost `0.1·|amount| ≥ 0`, everything
else costs nothing). -/
theorem watchEvents_penalty_nonneg (L : ℕ) (pf rp : ℚ) (d : WatchDraws)
    (hdur : ∀ j, 0 ≤ d.pauseDurR j ∧ d.pauseDurR j ≤ 1) :
    ∀ e ∈ watchEvents L pf rp d, 0 ≤ eventPenalty e := by
  intro e he
  unfold watchEvents at he
  rw [List.mem_mergeSort] at he
  simp only [List.mem_append] at he
  rcases he with ((((he | he) | he) | he) | he)
  · simp only [List.mem_map, List.mem_range] at he
    obtain ⟨j, _, rfl⟩ := he
    simp only [eventPenalty, if_pos rfl]
    exact roundTenth_nonneg
      (le_trans (by norm_num)
        (uniform_mem (by norm_num : (2:ℚ) ≤ 15) (hdur j).1 (hdur j).2).1)
  · by_cases hg : d.rewindGate < rp
    · rw [if_pos hg] at he
      simp only [List.mem_map, List.mem_range] at he
      obtain ⟨j, _, rfl⟩ := he
      simp only [eventPenalty]
      norm_num
      positivity
    · rw [if_neg hg] at he
      simp at he
  · by_cases hg : d.skipGate < 3/10
    · rw [if_pos hg] at he
      simp only [List.mem_map, List.mem_range] at he
      obtain ⟨j, _, rfl⟩ := he
      simp only [eventPenalty]
      norm_num
      positivity
    · rw [if_neg hg] at he
      simp at he
  · by_cases hg : d.qualityGate < 1/5
    · rw [if_pos hg] at he
      simp only [List.mem_singleton] at he
      subst he
      simp [eventPenalty]
    · rw [if_neg hg] at he
      simp at he
  · by_cases hg : d.volumeGate < 2/5
    · rw [if_pos hg] at he
      simp only [List.mem_map, List.mem_range] at he
      obtain ⟨j, _, rfl⟩ := he
      simp [eventPenalty]
    · rw [if_neg hg] at he
      simp at he

/-- C2: `generate_human_watch_pattern(300, "tutorial")` always produces
`total_watch_time ≥ 30` seconds and a `completion_rate` within
`[10, 100]` percent, for every well-formed random draw. -/
theorem watchPattern_tutorial_300 (d : WatchDraws)
    (hvar : ∀ i, 0 ≤ d.varR i ∧ d.varR i ≤ 1)
    (hdur : ∀ j, 0 ≤ d.pauseDurR j ∧ d.pauseDurR j ≤ 1)
    (hn0 : 0 ≤ d.noiseR) (hn1 : d.noiseR ≤ 1) :
    30 ≤ (generateHumanWatchPattern 300 "tutorial" d).totalWatchTime ∧
    10 ≤ (generateHumanWatchPattern 300 "tutorial" d).completionRate ∧
    (generateHumanWatchPattern 300 "tutorial" d).completionRate ≤ 100 := by
  have hpd : (retentionCurves "tutorial").getD entertainmentRetention =
      ⟨[100, 98, 95, 93, 90, 88, 85, 83, 80, 78, 75], [4, 8], 1/2, 3/5⟩ := by
    with_unfolding_all rfl
  have htot : (generateHumanWatchPattern 300 "tutorial" d).totalWatchTime =
      calculateActualWatchTime 300
        (scaledRetention 300 [100, 98, 95, 93, 90, 88, 85, 83, 80, 78, 75] d.varR)
        (watchEvents 300 (3/5) (1/2) d) d.noiseR := by
    simp only [generateHumanWatchPattern, hpd]
  have hcr : (generateHumanWatchPattern 300 "tutorial" d).completionRate =
      roundTenth (((calculateActualWatchTime 300
        (scaledRetention 300 [100, 98, 95, 93, 90, 88, 85, 83, 80, 78, 75] d.varR)
        (watchEvents 300 (3/5) (1/2) d) d.noiseR : ℤ) : ℚ) / 300 * 100) := by
    simp only [generateHumanWatchPattern, hpd]
    norm_num
  have hR : scaledRetention 300 [100, 98, 95, 93, 90, 88, 85, 83, 80, 78, 75] d.varR =
      [max 5 (min 100 (100 + uniform (-2) 2 (d.varR 0))),
       max 5 (min 100 (98 + uniform (-5) 5 (d.varR 1))),
       max 5 (min 100 (95 + uniform (-5) 5 (d.varR 2))),
       max 5 (min 100 (93 + uniform (-10) 5 (d.varR 3))),
       max 5 (min 100 (90 + uniform (-10) 5 (d.varR 4))),
       max 5 (min 100 (88 + uniform (-10) 5 (d.varR 5))),
       max 5 (min 100 (85 + uniform (-10) 5 (d.varR 6))),
       max 5 (min 100 (83 + uniform (-10) 5 (d.varR 7))),
       max 5 (min 100 (80 + uniform (-10) 5 (d.varR 8))),
       max 5 (min 100 (78 + uniform (-10) 5 (d.varR 9)))] := by
    with_unfolding_all rfl
  have hb := calculateActualWatchTime_bounds 300
    (scaledRetention 300 [100, 98, 95, 93, 90, 88, 85, 83, 80, 78, 75] d.varR)
    (watchEvents 300 (3/5) (1/2) d) d.noiseR
    (watchEvents_penalty_nonneg 300 (3/5) (1/2) d hdur)
    (scaledRetention_nonneg 300 _ d.varR) hn0 hn1
  have hS : ((scaledRetention 300 [100, 98, 95, 93, 90, 88, 85, 83, 80, 78, 75]
      d.varR).enum.map fun p =>
        ((300 : ℕ) : ℚ) / (scaledRetention 300
          [100, 98, 95, 93, 90, 88, 85, 83, 80, 78, 75] d.varR).length *
          (p.2 / 100)).sum ≤ 1398/5 := by
    rw [hR]
    have hu3 := uniform_mem (by norm_num : (-10:ℚ) ≤ 5) (hvar 3).1 (hvar 3).2
    have hu4 := uniform_mem (by norm_num : (-10:ℚ) ≤ 5) (hvar 4).1 (hvar 4).2
    have hu5 := uniform_mem (by norm_num : (-10:ℚ) ≤ 5) (hvar 5).1 (hvar 5).2
    have hu6 := uniform_mem (by norm_num : (-10:ℚ) ≤ 5) (hvar 6).1 (hvar 6).2
    have hu7 := uniform_mem (by norm_num : (-10:ℚ) ≤ 5) (hvar 7).1 (hvar 7).2
    have hu8 := uniform_mem (by norm_num : (-10:ℚ) ≤ 5) (hvar 8).1 (hvar 8).2
    have hu9 := uniform_mem (by norm_num : (-10:ℚ) ≤ 5) (hvar 9).1 (hvar 9).2
    have hb0 : max 5 (min 100 (100 + uniform (-2) 2 (d.varR 0))) ≤ 100 :=
      max_le (by norm_num) (min_le_left _ _)
    have hb1 : max 5 (min 100 (98 + uniform (-5) 5 (d.varR 1))) ≤ 100 :=
      max_le (by norm_num) (min_le_left _ _)
    have hb2 : max 5 (min 100 (95 + uniform (-5) 5 (d.varR 2))) ≤ 100 :=
      max_le (by norm_num) (min_le_left _ _)
    have hb3 : max 5 (min 100 (93 + uniform (-10) 5 (d.varR 3))) ≤ 98 :=
      max_le (by norm_num) (le_trans (min_le_right _ _) (by linarith [hu3.2]))
    have hb4 : max 5 (min 100 (90 + uniform (-10) 5 (d.varR 4))) ≤ 95 :=
      max_le (by norm_num) (le_trans (min_le_right _ _) (by linarith [hu4.2]))
    have hb5 : max 5 (min 100 (88 + uniform (-10) 5 (d.varR 5))) ≤ 93 :=
      max_le (by norm_num) (le_trans (min_le_right _ _) (by linarith [hu5.2]))
    have hb6 : max 5 (min 100 (85 + uniform (-10) 5 (d.varR 6))) ≤ 90 :=
      max_le (by norm_num) (le_trans (min_le_right _ _) (by linarith [hu6.2]))
    have hb7 : max 5 (min 100 (83 + uniform (-10) 5 (d.varR 7))) ≤ 88 :=
      max_le (by norm_num) (le_trans (min_le_right _ _) (by linarith [hu7.2]))
    have hb8 : max 5 (min 100 (80 + uniform (-10) 5 (d.varR 8))) ≤ 85 :=
      max_le (by norm_num) (le_trans (min_le_right _ _) (by linarith [hu8.2]))
    have hb9 : max 5 (min 100 (78 + uniform (-10) 5 (d.varR 9))) ≤ 83 :=
      max_le (by norm_num) (le_trans (min_le_right _ _) (by linarith [hu9.2]))
    simp only [List.enum, List.enumFrom, List.map, List.sum_cons, List.sum_nil,
      List.length_cons, List.length_nil]
    push_cast
    linarith
  set tot := calculateActualWatchTime 300
    (scaledRetention 300 [100, 98, 95, 93, 90, 88, 85, 83, 80, 78, 75] d.varR)
    (watchEvents 300 (3/5) (1/2) d) d.noiseR with htotdef
  have h30 : 30 ≤ tot := hb.1
  have hub : (tot : ℚ) ≤ 14679/50 := by
    refine le_trans hb.2 ?_
    have : (21/20 : ℚ) * ((scaledRetention 300
        [100, 98, 95, 93, 90, 88, 85, 83, 80, 78, 75] d.varR).enum.map fun p =>
          ((300 : ℕ) : ℚ) / (scaledRetention 300
            [100, 98, 95, 93, 90, 88, 85, 83, 80, 78, 75] d.varR).length *
            (p.2 / 100)).sum ≤ 14679/50 := by
      linarith
    exact le_trans (max_le (by norm_num) this) le_rfl
  have h293 : tot ≤ 293 := by
    have hlt : (tot : ℚ) < 294 := lt_of_le_of_lt hub (by norm_num)
    exact_mod_cast Int.lt_add_one_iff.mp (by exact_mod_cast hlt)
  refine ⟨by rw [htot]; exact h30, ?_, ?_⟩
  · rw [hcr]
    have harg : ((tot : ℤ) : ℚ) / 300 * 100 = (tot : ℚ) / 3 := by ring
    rw [harg]
    refine roundTenth_ge_ten ?_
    have : (30 : ℚ) ≤ (tot : ℚ) := by exact_mod_cast h30
    linarith
  · rw [hcr]
    have harg : ((tot : ℤ) : ℚ) / 300 * 100 = (tot : ℚ) / 3 := by ring
    rw [harg]
    have hle : (tot : ℚ) / 3 ≤ 293/3 := by
      have : (tot : ℚ) ≤ 293 := by exact_mod_cast h293
      linarith
    have := roundTenth_le_of_le hle
    linarith

/-- Witness for C2 at all-zero draws. -/
theorem watchPattern_tutorial_300_witness :
    (0 : ℚ) ≤ zeroWatchDraws.noiseR ∧
    (30 ≤ (generateHumanWatchPattern 300 "tutorial" zeroWatchDraws).totalWatchTime ∧
      10 ≤ (generateHumanWatchPattern 300 "tutorial" zeroWatchDraws).completionRate ∧
      (generateHumanWatchPattern 300 "tutorial" zeroWatchDraws).completionRate ≤ 100) :=
  ⟨by norm_num [zeroWatchDraws],
    watchPattern_tutorial_300 zeroWatchDraws
      (fun i => by norm_num [zeroWatchDraws])
      (fun j => by norm_num [zeroWatchDraws])
      (by norm_num [zeroWatchDraws]) (by norm_num [zeroWatchDraws])⟩

end WatchBot
